import Mathlib

/-!
Verification of the nthm thread-hierarchy runtime against its specification.

This file is a shallow embedding of the core of nthm (pipes, scope stacks,
the root pool, the tether/untether plumbing, the read/yield protocols and
the truncation counters) together with theorems settling the specification
claims about them.

Modelling conventions:
* Pipes are addressed by natural-number identifiers; the process state is an
  association list from identifiers to pipe records plus the root pool and
  the thread-local context of the single executing thread.  A null pipe
  pointer is `Option.none`; a dangling pointer is an identifier absent from
  the association list.
* pthread primitives (mutex lock / unlock, condition signal) are assumed to
  succeed, so the code paths that invalidate a pipe's identity tag with a
  MUGGLE value after a primitive failure are not taken.  A condition wait is
  modelled by a distinguished `blocked` outcome: the embedding describes one
  thread running against a fixed snapshot of the shared state, so a wait
  whose wake-up condition is already false never returns.
* The doubly linked blockers list and the finishers queue of a scope frame
  are modelled as Lean lists of pipe identifiers; the C `finisher_queue`
  tail pointer is the last element of the finishers list.  The pointer-level
  behaviour of the pipe-list module (pipl.c) is embedded separately and
  faithfully, with an explicit node heap, for the claims about it.
* The C error channel `int *err` is threaded explicitly: every operation
  takes the current channel value and returns the new one.  `unsigned`
  arithmetic on the truncation counter is `Nat` arithmetic modulo `2 ^ 32`.
-/

namespace Nthm

/-- Error codes from nthm.h. -/
def NTHM_UNMANT : Int := -16

/-- Error code for accessing a non-locally tethered pipe. -/
def NTHM_NOTDRN : Int := -17

/-- Error code for a null pipe argument. -/
def NTHM_NULPIP : Int := -18

/-- Error code for a corrupted or invalid pipe. -/
def NTHM_INVPIP : Int := -19

/-- Error code reported when an operation is interrupted by a kill. -/
def NTHM_KILLED : Int := -20

/-- Error code for scope underflow. -/
def NTHM_UNDFLO : Int := -21

/-- Warning code for a scope not exited before a yield. -/
def NTHM_XSCOPE : Int := -22

/-- Embedding of the IER macro from errs.h: record the n-th internal error
site into the channel without overwriting an earlier error. -/
def ier (err : Int) (n : Int) : Int := if err ≠ 0 then err else -n

/-- Pipes are addressed by numeric identifiers standing for their addresses. -/
abbrev PipeId := Nat

/-- Modulus of the C `unsigned int` truncation counter. -/
def U32 : Nat := 2 ^ 32

/-- One scope frame (struct scope_stack_struct in scopes.h): a truncation
counter, a blockers list and a finishers queue.  The `finisher_queue` tail
pointer of the C struct is represented by the last element of `finishers`. -/
structure ScopeFrame where
  truncation : Nat
  blockers : List PipeId
  finishers : List PipeId
  deriving Repr, DecidableEq

/-- A fresh zero-valued scope frame as pushed by scope_entered. -/
def ScopeFrame.fresh : ScopeFrame := ⟨0, [], []⟩

/-- One pipe (struct nthm_pipe_struct in pipes.h).  The `valid` field is
true when the identity tag holds MAGIC; the condition variables and the
mutex carry no data and are not represented.  `scope` is the scope stack
with the top frame first; a well-formed pipe has a non-empty stack whose
last frame is the sentinel pushed by new_pipe.  `pool` is true when the
pipe's pool cell is linked into the root pool. -/
structure Pipe where
  valid : Bool
  killed : Bool
  zombie : Bool
  yielded : Bool
  pool : Bool
  reader : Option PipeId
  scope : List ScopeFrame
  depth : Nat
  placeholder : Bool
  result : Option Nat
  status : Int
  deriving Repr, DecidableEq

/-- The shared state visible to the embedded operations: the live pipes, the
root pool (front of the list is the most recently pushed entry) and the
thread-local context of the executing thread. -/
structure Sys where
  pipes : List (PipeId × Pipe)
  rootPool : List PipeId
  context : Option PipeId
  deriving Repr, DecidableEq

/-- Dereference a pipe identifier. -/
def findPipe (s : Sys) (i : PipeId) : Option Pipe :=
  (s.pipes.find? (fun x => x.1 == i)).map (·.2)

/-- Update the pipe at identifier `i` by `f`, leaving other pipes alone. -/
def updatePipe (s : Sys) (i : PipeId) (f : Pipe → Pipe) : Sys :=
  { s with pipes := s.pipes.map (fun x => if x.1 = i then (x.1, f x.2) else x) }

/-- Remove the pipe at identifier `i` (the effect of freeing it). -/
def removePipe (s : Sys) (i : PipeId) : Sys :=
  { s with pipes := s.pipes.filter (fun x => x.1 ≠ i) }

/-- Embedding of _nthm_scope_level (scopes.c): the number of enclosing
scopes of a pipe, computed as the length of the chain of enclosures under
the top frame.  A null, invalid or scopeless pipe yields level 0 with an
internal error recorded. -/
def scopeLevel (s : Sys) (d : Option PipeId) (err : Int) : Nat × Int :=
  match d with
  | none => (0, ier err 289)
  | some did =>
    match findPipe s did with
    | none => (0, ier err 289)
    | some p =>
      if ¬ p.valid then (0, ier err 290)
      else match p.scope with
        | [] => (0, ier err 291)
        | _ :: enclosures => (enclosures.length, err)

/-- Embedding of _nthm_drained_by (scopes.c): non-zero iff `d` is the drain
of `s` in the drain's current scope, i.e. the reader of `s` is `d` and the
depth recorded in `s` matches the current scope level of `d`. -/
def drainedBy (s : Sys) (sid : PipeId) (d : Option PipeId) (err : Int) :
    Bool × Int :=
  match findPipe s sid with
  | none => (false, ier err 292)
  | some ps =>
    if ¬ ps.valid then (false, ier err 293)
    else match ps.reader with
      | none => (false, err)
      | some r =>
        if d ≠ some r then (false, err)
        else
          let (l, e) := scopeLevel s d err
          (ps.depth = l, e)

/-- Embedding of _nthm_retirable (pipes.c): a locked read reporting whether
the pipe is ready to be retired.  A zombie is always retirable; otherwise
the pipe must have only the sentinel scope frame with no blockers and no
finishers, and be a placeholder or a killed-and-yielded worker. -/
def retirable (p : Option Pipe) (err : Int) : Bool × Int :=
  match p with
  | none => (false, ier err 118)
  | some p =>
    if ¬ p.valid then (false, ier err 119)
    else if p.zombie then (true, err)
    else match p.scope with
      | [] => (false, ier err 121)
      | e :: enclosures =>
        let q := if enclosures ≠ [] then false
          else if e.blockers ≠ [] then false
          else if e.finishers ≠ [] then false
          else if p.placeholder then true
          else if p.yielded then p.killed else false
        (q, err)

/-- Predicate transcribing claim C2's description of retirability word for
word, to be compared with the embedded `retirable`: no reader, top frame
empty, scope stack containing exactly the sentinel, and the pipe either a
finished placeholder or a killed-and-yielded worker ("finished" read as
having yielded). -/
def retirableClaim (p : Pipe) : Bool :=
  p.zombie ||
    (p.reader = none &&
      (match p.scope with
        | [] => false
        | e :: enclosures =>
          e.blockers = [] && e.finishers = [] && enclosures = [] &&
            ((p.placeholder && p.yielded) || (p.killed && p.yielded))))

/-- Record an error code in the channel without overwriting an earlier one,
the pervasive `*err = (*err ? *err : c)` idiom of the source. -/
def raise (err c : Int) : Int := if err ≠ 0 then err else c

/-- Update the top scope frame of the pipe at `i`. -/
def updateTopFrame (s : Sys) (i : PipeId) (f : ScopeFrame → ScopeFrame) : Sys :=
  updatePipe s i (fun p =>
    { p with scope := match p.scope with
        | [] => []
        | e :: rest => f e :: rest })

/-- Embedding of _nthm_scope_entered (scopes.c): push a fresh zero-valued
frame onto the pipe's scope stack (allocation is assumed to succeed). -/
def scopeEntered (s : Sys) (i : PipeId) (err : Int) : Sys × Int × Bool :=
  match findPipe s i with
  | none => (s, ier err 277, false)
  | some p =>
    if ¬ p.valid then (s, ier err 278, false)
    else (updatePipe s i (fun q => { q with scope := ScopeFrame.fresh :: q.scope }),
      err, true)

/-- Embedding of _nthm_scope_exited (scopes.c): pop the top frame provided
its blockers and finishers are empty.  As in the source, the function still
reports success (after recording the error) when the frame is not empty and
therefore not popped.  The separate finisher_queue consistency check of the
source coincides with the finishers check in the list model. -/
def scopeExited (s : Sys) (i : PipeId) (err : Int) : Sys × Int × Bool :=
  match findPipe s i with
  | none => (s, ier err 281, false)
  | some p =>
    if ¬ p.valid then (s, ier err 282, false)
    else match p.scope with
      | [] => (s, ier err 283, false)
      | e :: rest =>
        if e.blockers ≠ [] then (s, ier err 285, true)
        else if e.finishers ≠ [] then (s, ier err 286, true)
        else (updatePipe s i (fun q => { q with scope := rest }), err, true)

/-- Embedding of _nthm_retired (pipes.c): tear down a pipe that has no
enclosing scopes; the condition variables and lock are destroyed and the
pipe is freed, which the model renders as removal from the pipe map. -/
def retired (s : Sys) (i : PipeId) (err : Int) : Sys × Int × Bool :=
  match findPipe s i with
  | none => (s, ier err 88, false)
  | some p =>
    if ¬ p.valid then (s, ier err 89, false)
    else match p.scope with
      | [] => (s, ier err 90, false)
      | _ :: rest =>
        if rest ≠ [] then (s, ier err 91, false)
        else
          let (s1, e1, ok) := scopeExited s i err
          if ¬ ok then (s1, e1, false)
          else (removePipe s1 i, e1, true)

/-- Embedding of _nthm_placed (pool.c): insert a pipe into the root pool
unconditionally (idempotently when its pool cell is already linked). -/
def placed (s : Sys) (i : PipeId) (err : Int) : Sys × Int × Bool :=
  match findPipe s i with
  | none => (s, ier err 221, false)
  | some p =>
    if ¬ p.valid then (s, ier err 222, false)
    else if p.pool then (s, err, true)
    else ({ updatePipe s i (fun q => { q with pool := true }) with
      rootPool := i :: s.rootPool }, err, true)

/-- Embedding of _nthm_displace (pool.c): take a pipe out of the root pool
unconditionally. -/
def displace (s : Sys) (i : PipeId) (err : Int) : Sys × Int :=
  match findPipe s i with
  | none => (s, ier err 228)
  | some p =>
    if ¬ p.valid then (s, ier err 229)
    else if p.pool then
      ({ updatePipe s i (fun q => { q with pool := false }) with
        rootPool := s.rootPool.erase i }, err)
    else (s, err)

/-- Embedding of _nthm_pooled (pool.c): insert a pipe into the root pool if
it is not retirable, and retire it otherwise. -/
def pooled (s : Sys) (i : PipeId) (err : Int) : Sys × Int × Bool :=
  let (r, e1) := retirable (findPipe s i) err
  if ¬ r then placed s i e1
  else
    let (s1, e2) := displace s i e1
    retired s1 i e2

/-- Embedding of _nthm_unpool (pool.c): if the pipe is retirable, remove it
from the root pool and retire it, clearing the thread-local context binding
when the pipe was the current context placeholder. -/
def unpool (s : Sys) (i : PipeId) (err : Int) : Sys × Int :=
  match findPipe s i with
  | none => (s, ier err 234)
  | some p =>
    if ¬ p.valid then (s, ier err 235)
    else
      let (r, e1) := retirable (some p) err
      if ¬ r then (s, e1)
      else
        let c := p.placeholder && (s.context == some i)
        let (s1, e2) := displace s i e1
        let (s2, e3, ok) := retired s1 i e2
        if ok then
          (if c then { s2 with context := none } else s2, e3)
        else (s2, ier e3 236)

/-- Abstraction of _nthm_bilaterally_dequeued as used by _nthm_untethered:
the complementary pair connecting source `sid` with the top scope frame of
drain `did` is removed from whichever of the frame's blockers or finishers
holds it, and the source's reader cell is freed.  Returns whether the pair
was found; the pointer-level behaviour of the pipe-list module is embedded
separately (see the PiplHeap functions). -/
def bdqTopFrame (s : Sys) (sid did : PipeId) : Sys × Bool :=
  match findPipe s did with
  | none => (s, false)
  | some d =>
    match d.scope with
    | [] => (s, false)
    | e :: rest =>
      if sid ∈ e.blockers ∨ sid ∈ e.finishers then
        let e2 : ScopeFrame := ⟨e.truncation, e.blockers.erase sid, e.finishers.erase sid⟩
        let s1 := updatePipe s did (fun q => { q with scope := e2 :: rest })
        (updatePipe s1 sid (fun q => { q with reader := none }), true)
      else (s, false)

/-- Embedding of _nthm_untethered (plumbing.c): separate a source from its
drain.  A readerless source is pooled directly; otherwise the current
context must be the drain at the correct scope level, the complementary
pair is bilaterally dequeued, the drain is given a chance to be unpooled
and the source is pooled. -/
def untethered (s : Sys) (sid : PipeId) (err : Int) : Sys × Int × Bool :=
  match findPipe s sid with
  | none => (s, ier err 170, false)
  | some p =>
    if ¬ p.valid then (s, ier err 171, false)
    else if p.reader = none then pooled s sid err
    else
      let (dr, e1) := drainedBy s sid s.context err
      if ¬ dr then (s, raise e1 NTHM_NOTDRN, false)
      else match s.context with
        | none => (s, ier e1 172, false)
        | some did =>
          match findPipe s did with
          | none => (s, ier e1 172, false)
          | some d =>
            if ¬ d.valid then (s, ier e1 173, false)
            else match d.scope with
              | [] => (s, ier e1 176, false)
              | _ :: _ =>
                let (s1, found) := bdqTopFrame s sid did
                if ¬ found then (s1, e1, false)
                else
                  let (s2, e2) := unpool s1 did e1
                  pooled s2 sid e2

/-- Embedding of _nthm_killable (plumbing.c): set the killed flag, signal
the pipe's progress condition, and untether it. -/
def killable (s : Sys) (sid : PipeId) (err : Int) : Sys × Int × Bool :=
  match findPipe s sid with
  | none => (s, ier err 185, false)
  | some p =>
    if ¬ p.valid then (s, ier err 186, false)
    else untethered (updatePipe s sid (fun q => { q with killed := true })) sid err

/-- Embedding of _nthm_tethered (plumbing.c): tether a source to a drain,
creating the complementary pair, filing the drain-side end under the
drain's top scope frame (finishers when the source has yielded, blockers
otherwise), recording the drain's scope level in the source's depth, and
finally displacing the source from the root pool. -/
def tethered (s : Sys) (sid did : PipeId) (err : Int) : Sys × Int × Bool :=
  match findPipe s did with
  | none => (s, ier err 159, false)
  | some d =>
    if ¬ d.valid then (s, ier err 160, false)
    else match findPipe s sid with
      | none => (s, ier err 161, false)
      | some p =>
        if ¬ p.valid then (s, ier err 162, false)
        else if p.reader ≠ none then
          let (dr, e1) := drainedBy s sid (some did) err
          if dr then
            let (s1, e2) := displace s sid e1
            (s1, e2, true)
          else
            let (s1, e2) := displace s sid (raise e1 NTHM_NOTDRN)
            (s1, e2, false)
        else if p.killed then
          let (s1, e2) := displace s sid (ier err 164)
          (s1, e2, false)
        else match d.scope with
          | [] =>
            let (s1, e2) := displace s sid (ier err 166)
            (s1, e2, false)
          | e :: rest =>
            let s1 := updatePipe s sid (fun q => { q with reader := some did })
            let e2 : ScopeFrame :=
              if p.yielded then ⟨e.truncation, e.blockers, e.finishers ++ [sid]⟩
              else ⟨e.truncation, sid :: e.blockers, e.finishers⟩
            let s2 := updatePipe s1 did (fun q => { q with scope := e2 :: rest })
            let (l, e3) := scopeLevel s2 (some did) err
            let s3 := updatePipe s2 sid (fun q => { q with depth := l })
            let (s4, e4) := displace s3 sid e3
            (s4, e4, true)

/-- Outcome of a possibly blocking protocol operation: either the caller
waits on a condition variable whose wake-up condition is false in the
current snapshot (`blocked`), or the operation returns a result together
with the new shared state and error channel. -/
inductive ReadOutcome where
  | blocked
  | ret (result : Option Nat) (s : Sys) (err : Int)
  deriving Repr, DecidableEq

/-- Embedding of the inner loop of blockers_killed (plumbing.c): repeatedly
kill the first blocker of the drain's top scope frame until the list is
empty, giving up when killing one fails.  The fuel argument bounds the
iteration; the source spins forever in the ill-formed situation where a
kill succeeds without shrinking the list, which the model renders as
returning failure on exhausted fuel. -/
def bkLoop (did : PipeId) : Nat → Sys → Int → Sys × Int × Bool
  | 0, s, err => (s, err, false)
  | fuel + 1, s, err =>
    match findPipe s did with
    | none => (s, err, false)
    | some d =>
      match d.scope with
      | [] => (s, err, false)
      | fr :: _ =>
        match fr.blockers with
        | [] => (s, err, true)
        | b :: _ =>
          let (s1, e1, ok) := killable s b err
          if ¬ ok then (s1, e1, false)
          else bkLoop did fuel s1 e1

/-- Embedding of blockers_killed (plumbing.c): kill every blocker of a
drain that is neither a placeholder nor yielded. -/
def blockersKilled (s : Sys) (did : PipeId) (err : Int) : Sys × Int × Bool :=
  match findPipe s did with
  | none => (s, ier err 190, false)
  | some d =>
    if ¬ d.valid then (s, ier err 191, false)
    else if d.placeholder then (s, ier err 192, false)
    else if d.yielded then (s, ier err 194, false)
    else match d.scope with
      | [] => (s, ier err 195, false)
      | fr :: _ => bkLoop did (fr.blockers.length + 1) s err

/-- Embedding of the finisher-retiring loop of _nthm_descendants_killed
(plumbing.c): dequeue each finisher bilaterally from the drain's top scope
frame and retire it, stopping on a finisher that is pooled or cannot be
retired. -/
def dkLoop (did : PipeId) : Nat → Sys → Int → Sys × Int × Bool
  | 0, s, err => (s, err, false)
  | fuel + 1, s, err =>
    match findPipe s did with
    | none => (s, err, false)
    | some d =>
      match d.scope with
      | [] => (s, err, false)
      | fr :: rest =>
        match fr.finishers with
        | [] => (s, err, true)
        | f :: fs =>
          let s1 := updatePipe s did
            (fun q => { q with scope := (⟨fr.truncation, fr.blockers, fs⟩ : ScopeFrame) :: rest })
          let s2 := updatePipe s1 f (fun q => { q with reader := none })
          match findPipe s2 f with
          | none => (s2, err, false)
          | some pf =>
            if pf.pool then (s2, ier err 204, false)
            else
              let (s3, e1, ok) := retired s2 f err
              if ¬ ok then (s3, e1, false)
              else dkLoop did fuel s3 e1

/-- Embedding of _nthm_descendants_killed (plumbing.c): kill the blockers,
then retire everything in the finishers queue. -/
def descendantsKilled (s : Sys) (did : PipeId) (err : Int) : Sys × Int × Bool :=
  match findPipe s did with
  | none => (s, ier err 200, false)
  | some d =>
    if ¬ d.valid then (s, ier err 201, false)
    else
      let (s1, e1, ok) := blockersKilled s did err
      if ¬ ok then (s1, e1, false)
      else match findPipe s1 did with
        | none => (s1, e1, false)
        | some d1 =>
          match d1.scope with
          | [] => (s1, ier e1 203, false)
          | fr :: _ => dkLoop did (fr.finishers.length + 1) s1 e1

/-- Embedding of _nthm_untethered_read (protocol.c): read from a pipe with
no designated drain, waiting on its termination signal when it has not
yielded (rendered as `blocked` against a fixed snapshot), recording NOTDRN
when a reader exists, promoting the pipe's status into the error channel,
and killing-and-untethering the pipe before returning. -/
def untetheredRead (s : Sys) (sid : PipeId) (err : Int) : ReadOutcome :=
  match findPipe s sid with
  | none => .ret none s (ier err 237)
  | some p =>
    if ¬ p.valid then .ret none s (ier err 238)
    else if p.reader ≠ none then
      let e1 := raise err NTHM_NOTDRN
      let s1 := if p.yielded then s
        else updatePipe s sid (fun q => { q with yielded := true })
      let e2 := if p.yielded then e1 else ier e1 241
      let (s2, e3, _) := killable s1 sid e2
      .ret none s2 e3
    else if ¬ p.yielded then .blocked
    else
      let pe := if err = 0 ∧ p.status ≠ 0
        then (p.status, updatePipe s sid (fun q => { q with status := 0 }))
        else (err, s)
      let (s2, e2, ok) := killable pe.2 sid pe.1
      .ret (if ok then p.result else none) s2 e2

/-- Embedding of _nthm_tethered_read (protocol.c): read from a source whose
drain is the current context.  The caller waits on the drain's progress
condition until the source yields or the drain is killed; on exit it
promotes the source's status, takes the result only if the source yielded,
and unconditionally kills-and-untethers the source. -/
def tetheredRead (s : Sys) (sid : PipeId) (err : Int) : ReadOutcome :=
  match findPipe s sid with
  | none => .ret none s (ier err 243)
  | some p =>
    if ¬ p.valid then .ret none s (ier err 244)
    else if p.reader = none then .ret none s (ier err 245)
    else
      let (dr, e1) := drainedBy s sid s.context err
      if ¬ dr then .ret none s (raise e1 NTHM_NOTDRN)
      else match s.context with
        | none => .ret none s (ier e1 246)
        | some did =>
          match findPipe s did with
          | none => .ret none s (ier e1 246)
          | some d =>
            if ¬ d.valid then .ret none s (ier e1 247)
            else if ¬ (p.yielded || d.killed) then .blocked
            else
              let pe := if e1 = 0 ∧ p.status ≠ 0
                then (p.status, updatePipe s sid (fun q => { q with status := 0 }))
                else (e1, s)
              let result := if p.yielded then p.result else none
              let (s2, e2, ok) := killable pe.2 sid pe.1
              .ret (if ok then result else none) s2 e2

/-- Embedding of untethered_yield (protocol.c): set the yielded flag,
signal the termination condition, and promote an in-progress error into
the pipe's status field, clearing the channel. -/
def untetheredYieldS (s : Sys) (sid : PipeId) (err : Int) : Sys × Int :=
  match findPipe s sid with
  | none => (s, ier err 251)
  | some p =>
    if ¬ p.valid then (s, ier err 252)
    else
      let s1 := updatePipe s sid (fun q => { q with yielded := true })
      if ¬ p.killed ∧ p.status = 0 then
        (updatePipe s1 sid (fun q => { q with status := err }),
          if err ≠ 0 then 0 else err)
      else (s1, err)

/-- Embedding of tethered_yield (protocol.c): move the source's entry from
the drain's blockers to the finishers queue of the scope frame owning the
source (found by descending the drain's scope stack by the difference
between the drain's scope level and the source's depth), set the yielded
flag, signal the drain's progress, and promote an in-progress error into
the source's status, clearing the channel. -/
def tetheredYieldS (s : Sys) (sid : PipeId) (err : Int) : Sys × Int :=
  match findPipe s sid with
  | none => (s, ier err 255)
  | some p =>
    if ¬ p.valid then (s, ier err 256)
    else if p.killed then (s, ier err 257)
    else match p.reader with
      | none => (s, ier err 258)
      | some did =>
        match findPipe s did with
        | none => (s, ier err 259)
        | some d =>
          if ¬ d.valid then (s, ier err 260)
          else match d.scope with
            | [] => (s, ier err 262)
            | _ :: _ =>
              let (l, e1) := scopeLevel s (some did) err
              if l < p.depth then (s, ier e1 263)
              else match d.scope.get? (l - p.depth) with
                | none => (s, ier e1 264)
                | some fr =>
                  let fr2 : ScopeFrame :=
                    ⟨fr.truncation, fr.blockers.erase sid, fr.finishers ++ [sid]⟩
                  let s1 := updatePipe s did
                    (fun q => { q with scope := q.scope.set (l - p.depth) fr2 })
                  let s2 := updatePipe s1 sid (fun q => { q with yielded := true })
                  if p.status = 0 then
                    (updatePipe s2 sid (fun q => { q with status := e1 }),
                      if e1 ≠ 0 then 0 else e1)
                  else (s2, e1)

/-- Embedding of yield (protocol.c): flush the source's descendants, then
yield by the untethered protocol when the source is killed or readerless
and by the tethered protocol otherwise. -/
def yield (s : Sys) (sid : PipeId) (err : Int) : Sys × Int :=
  let (s1, e1, ok) := descendantsKilled s sid err
  if ¬ ok then (s1, e1)
  else match findPipe s1 sid with
    | none => (s1, ier e1 269)
    | some p =>
      if ¬ p.valid then (s1, ier e1 270)
      else if p.killed ∨ p.reader = none then untetheredYieldS s1 sid e1
      else tetheredYieldS s1 sid e1

/-- Outcome of nthm_select: blocked on the progress condition, or a
readable pipe (or null) together with the new state and error channel. -/
inductive SelectOutcome where
  | blocked
  | ret (p : Option PipeId) (s : Sys) (err : Int)
  deriving Repr, DecidableEq

/-- Embedding of the body of nthm_select (api.c): return the next finisher
of the current context's top scope frame, dequeued bilaterally; block while
there are blockers but no finishers; exit with null and KILLED when the
context pipe is killed; return null silently when nothing is tethered. -/
def nthmSelect (s : Sys) (err : Int) : SelectOutcome :=
  match s.context with
  | none => .ret none s err
  | some did =>
    match findPipe s did with
    | none => .ret none s (ier err 43)
    | some d =>
      if ¬ d.valid then .ret none s (ier err 43)
      else match d.scope with
        | [] => .ret none s (ier err 45)
        | fr :: rest =>
          if d.killed then .ret none s (raise err NTHM_KILLED)
          else match fr.finishers with
            | f :: fs =>
              let s1 := updatePipe s did
                (fun q => { q with scope := (⟨fr.truncation, fr.blockers, fs⟩ : ScopeFrame) :: rest })
              let s2 := updatePipe s1 f (fun q => { q with reader := none })
              .ret (some f) s2 err
            | [] =>
              if fr.blockers ≠ [] then .blocked
              else .ret none s err

/-- Embedding of the walking loop of _nthm_heritably_truncated (pipes.c):
from each drain in the reader chain, descend the drain's scope stack to the
frame owning the source and report its truncation counter if nonzero,
otherwise continue to the next drain hand over hand.  Fuel bounds the walk;
the chain is acyclic in every reachable state. -/
def htWalk (s : Sys) : Nat → PipeId → Pipe → Int → Nat × Int
  | 0, _, _, err => (0, err)
  | fuel + 1, _, p, err =>
    match p.reader with
    | none => (0, err)
    | some did =>
      match findPipe s did with
      | none => (0, ier err 108)
      | some d =>
        if ¬ d.valid then (0, ier err 109)
        else match d.scope with
          | [] => (0, ier err 111)
          | _ :: _ =>
            let (l, e1) := scopeLevel s (some did) err
            if l < p.depth then (0, ier e1 112)
            else match d.scope.get? (l - p.depth) with
              | none => (0, ier e1 113)
              | some fr =>
                if fr.truncation ≠ 0 then (fr.truncation, e1)
                else htWalk s fuel did d e1

/-- Embedding of _nthm_heritably_truncated (pipes.c): a source that has
yielded or been killed counts as truncated outright; otherwise the walk up
the reader chain consults the scope-frame truncation counters. -/
def heritablyTruncated (s : Sys) (sid : PipeId) (err : Int) : Nat × Int :=
  match findPipe s sid with
  | none => (0, ier err 105)
  | some p =>
    if ¬ p.valid then (0, ier err 106)
    else
      let h := if p.yielded then 1 else if p.killed then 1 else 0
      if h ≠ 0 then (h, err)
      else htWalk s (s.pipes.length + 1) sid p err

/-- Embedding of the body of nthm_truncated (api.c): report the current
context's own top-frame truncation counter if nonzero, and the heritable
truncation status otherwise. -/
def nthmTruncated (s : Sys) (err : Int) : Nat × Int :=
  match s.context with
  | none => (0, raise err NTHM_UNMANT)
  | some sid =>
    match findPipe s sid with
    | none => (0, ier err 55)
    | some p =>
      if ¬ p.valid then (0, ier err 55)
      else match p.scope with
        | [] => (0, ier err 57)
        | fr :: _ =>
          if fr.truncation ≠ 0 then (fr.truncation, err)
          else heritablyTruncated s sid err

/-- Embedding of the body of nthm_truncate (api.c): after validating the
source and checking that the current context drains it, bump the truncation
counter of the source's top scope frame unless the increment would wrap
around to zero. -/
def nthmTruncate (s : Sys) (source : Option PipeId) (err : Int) : Sys × Int :=
  match source with
  | none => (s, raise err NTHM_NULPIP)
  | some sid =>
    match findPipe s sid with
    | none => (s, raise err NTHM_INVPIP)
    | some p =>
      if ¬ p.valid then (s, raise err NTHM_INVPIP)
      else match s.context with
        | none => (s, err)
        | some _ =>
          let (dr, e1) := drainedBy s sid s.context err
          if ¬ dr then (s, raise e1 NTHM_NOTDRN)
          else match p.scope with
            | [] => (s, ier e1 49)
            | fr :: rest =>
              let bumped := (fr.truncation + 1) % U32
              if bumped ≠ 0 then
                (updatePipe s sid
                  (fun q => { q with scope := { fr with truncation := bumped } :: rest }), e1)
              else (s, e1)

/-- Embedding of the body of nthm_truncate_all (api.c): bump the truncation
counter of the current context's top scope frame unless the increment would
wrap around to zero. -/
def nthmTruncateAll (s : Sys) (err : Int) : Sys × Int :=
  match s.context with
  | none => (s, err)
  | some did =>
    match findPipe s did with
    | none => (s, ier err 51)
    | some d =>
      if ¬ d.valid then (s, ier err 51)
      else match d.scope with
        | [] => (s, ier err 53)
        | fr :: rest =>
          let bumped := (fr.truncation + 1) % U32
          if bumped ≠ 0 then
            (updatePipe s did
              (fun q => { q with scope := { fr with truncation := bumped } :: rest }), err)
          else (s, err)

/-- Embedding of the error-channel handling of the API_ENTRY_POINT macro
(api.c): a caller that passes a null channel is switched to the static
bit bucket `ignored_error`, which is reset to zero on entry; a caller that
passes a channel keeps it, and the bit bucket is untouched.  The result is
the value held by the effective channel after entry paired with the new
value of the bit bucket. -/
def apiEntryChannel (callerErr : Option Int) (ignored : Int) : Int × Int :=
  match callerErr with
  | none => (0, 0)
  | some v => (v, ignored)

/-- Target of the `previous_pipe` back-link of a pipe-list node (pipl.h):
the field that points at the node, which is either a named head cell (a
list anchor such as a reader slot or a blockers head) or the `next_pipe`
field of the preceding node. -/
inductive PrevRef where
  | headOf (cell : Nat)
  | nextOf (node : Nat)
  deriving Repr, DecidableEq

/-- One pipe-list node (struct pipe_list_struct in pipl.h), with pointers
rendered as identifiers; a pipe value of 0 stands for a null pipe
pointer. -/
structure PiplNode where
  pipe : Nat
  complement : Option Nat
  prev : Option PrevRef
  next : Option Nat
  deriving Repr, DecidableEq

/-- Heap of pipe-list nodes and named head cells, each cell holding an
optional node pointer. -/
structure PiplHeap where
  nodes : List (Nat × PiplNode)
  cells : List (Nat × Option Nat)
  deriving Repr, DecidableEq

/-- Dereference a node identifier. -/
def PiplHeap.node (h : PiplHeap) (i : Nat) : Option PiplNode :=
  (h.nodes.find? (fun x => x.1 == i)).map (·.2)

/-- Read a head cell. -/
def PiplHeap.cell (h : PiplHeap) (c : Nat) : Option Nat :=
  (((h.cells.find? (fun x => x.1 == c)).map (·.2)).getD none)

/-- Update the node at `i` by `f`. -/
def PiplHeap.setNode (h : PiplHeap) (i : Nat) (f : PiplNode → PiplNode) : PiplHeap :=
  { h with nodes := h.nodes.map (fun x => if x.1 = i then (x.1, f x.2) else x) }

/-- Remove (free) the node at `i`. -/
def PiplHeap.removeNode (h : PiplHeap) (i : Nat) : PiplHeap :=
  { h with nodes := h.nodes.filter (fun x => x.1 ≠ i) }

/-- Overwrite a head cell. -/
def PiplHeap.setCell (h : PiplHeap) (c : Nat) (v : Option Nat) : PiplHeap :=
  { h with cells := h.cells.map (fun x => if x.1 = c then (x.1, v) else x) }

/-- Whether a head cell is allocated in the heap. -/
def PiplHeap.hasCell (h : PiplHeap) (c : Nat) : Bool :=
  (h.cells.find? (fun x => x.1 == c)).isSome

/-- Write through a `previous_pipe` back-link: the C assignment
`*(t->previous_pipe) = v`. -/
def writePrev (h : PiplHeap) (r : PrevRef) (v : Option Nat) : PiplHeap :=
  match r with
  | .headOf c => h.setCell c v
  | .nextOf n => h.setNode n (fun nd => { nd with next := v })

/-- A `pipe_list *` argument: the address of either a head cell or the
complement field of a node. -/
inductive CellRef where
  | head (cell : Nat)
  | complementOf (node : Nat)
  deriving Repr, DecidableEq

/-- Read a `pipe_list *` argument. -/
def readCellRef (h : PiplHeap) : CellRef → Option Nat
  | .head c => h.cell c
  | .complementOf n => ((h.node n).map (·.complement)).getD none

/-- Write a `pipe_list *` argument. -/
def writeCellRef (h : PiplHeap) : CellRef → Option Nat → PiplHeap
  | .head c, v => h.setCell c v
  | .complementOf n, v => h.setNode n (fun nd => { nd with complement := v })

/-- Embedding of _nthm_severed (pipl.c): remove a node from its list
without freeing it, by writing its successor through the back-link and
fixing the successor's back-link. -/
def severed (h : PiplHeap) (t : Nat) (err : Int) : PiplHeap × Int × Bool :=
  match h.node t with
  | none => (h, ier err 139, false)
  | some nt =>
    match nt.prev with
    | none => (h, ier err 140, false)
    | some pr =>
      let h1 := writePrev h pr nt.next
      let h2 := match nt.next with
        | none => h1
        | some n2 => h1.setNode n2 (fun nd => { nd with prev := some pr })
      ((h2.setNode t (fun nd => { nd with prev := none, next := none })), err, true)

/-- Embedding of _nthm_freed (pipl.c): free a detached unit node after
clearing the reference to it from its complement. -/
def freed (h : PiplHeap) (r : Nat) (err : Int) : PiplHeap × Int × Bool :=
  match h.node r with
  | none => (h, ier err 141, false)
  | some nr =>
    if nr.next ≠ none then (h, ier err 142, false)
    else if nr.prev ≠ none then (h, ier err 143, false)
    else match nr.complement with
      | none => (h.removeNode r, err, true)
      | some c =>
        match h.node c with
        | none => (h, ier err 144, false)
        | some nc =>
          if nc.complement ≠ some r then (h, ier err 144, false)
          else ((h.setNode c (fun nd => { nd with complement := none })).removeNode r,
            err, true)

/-- Embedding of _nthm_unilaterally_delisted (pipl.c): remove the node a
cell points to from its list, free it, clear the cell, and return the
node's pipe. -/
def unilaterallyDelisted (h : PiplHeap) (t : CellRef) (err : Int) :
    PiplHeap × Int × Option Nat :=
  match readCellRef h t with
  | none => (h, err, none)
  | some n =>
    match h.node n with
    | none => (h, err, none)
    | some nd =>
      if nd.pipe = 0 then (h, err, none)
      else
        let (h1, e1, _) := severed h n err
        let (h2, e2, _) := freed h1 n e1
        (writeCellRef h2 t none, e2, some nd.pipe)

/-- Embedding of _nthm_popped (pipl.c): pop the first node of the list
anchored at head cell `f`, bilaterally: the head node's complement is
unilaterally delisted first, then the head node itself, and the head cell
is finally made to point at the saved successor. -/
def popped (h : PiplHeap) (f : Nat) (err : Int) : PiplHeap × Int × Option Nat :=
  match h.cell f with
  | none => (h, ier err 147, none)
  | some hd =>
    match h.node hd with
    | none => (h, err, none)
    | some nhd =>
      let o := nhd.next
      let (h1, e1, _) := unilaterallyDelisted h (.complementOf hd) err
      let (h2, e2, p) := unilaterallyDelisted h1 (.head f) e1
      (h2.setCell f o, e2, p)

/-- Scope frame with empty lists and a zero counter, used by the example
states below. -/
def emptyFrame : ScopeFrame := ⟨0, [], []⟩

/-- Killed placeholder drain with one blocker (pipe 1), in the root pool,
as left by killing the drain while a tethered read is pending. -/
def exampleDrain : Pipe :=
  ⟨true, true, false, false, true, none, [⟨0, [1], []⟩], 0, true, none, 0⟩

/-- Running source tethered to `exampleDrain` at depth 0. -/
def exampleSource : Pipe :=
  ⟨true, false, false, false, false, some 0, [emptyFrame], 0, false, none, 0⟩

/-- Snapshot in which the current context (pipe 0) is a killed drain with
the running source (pipe 1) tethered to it: the failing input for the
killed-drain read. -/
def exampleKilledDrain : Sys :=
  ⟨[(0, exampleDrain), (1, exampleSource)], [0], some 0⟩

/-- State left by the killed-drain read: the drain is retired, the source
is killed, untethered and pooled, and the context binding is cleared. -/
def exampleKilledDrainAfter : Sys :=
  ⟨[(1, ⟨true, true, false, false, true, none, [emptyFrame], 0, false, none, 0⟩)],
   [1], none⟩

/-- Pipe with a reader but otherwise meeting the retirement conditions:
the counterexample input for the retirability claim. -/
def exampleReaderPlaceholder : Pipe :=
  ⟨true, false, false, true, false, some 5, [emptyFrame], 0, true, none, 0⟩

/-- Valid zombie pipe. -/
def exampleZombie : Pipe :=
  ⟨true, false, true, false, false, some 7, [emptyFrame, emptyFrame], 2, false, none, 0⟩

/-- Drain at scope level 1 with a source (pipe 1) tethered at depth 1. -/
def exampleLevelDrain : Pipe :=
  ⟨true, false, false, false, false, none, [emptyFrame, ⟨0, [1], []⟩], 0, true, none, 0⟩

/-- Source tethered to `exampleLevelDrain` at depth 1. -/
def exampleLevelSource : Pipe :=
  ⟨true, false, false, false, false, some 0, [emptyFrame], 1, false, none, 0⟩

/-- Snapshot with a drain at scope level 1 draining pipe 1. -/
def exampleLevels : Sys :=
  ⟨[(0, exampleLevelDrain), (1, exampleLevelSource)], [], some 0⟩

/-- Two complementary unit nodes: node 0 (pipe 1) is the sole entry of the
list anchored at cell 0, its complement node 1 (pipe 2) the sole entry of
the list anchored at cell 1, as a blockers entry is paired with a reader
cell. -/
def examplePair : PiplHeap :=
  ⟨[(0, ⟨1, some 1, some (.headOf 0), none⟩),
    (1, ⟨2, some 0, some (.headOf 1), none⟩)],
   [(0, some 0), (1, some 1)]⟩

/-- Three-node heap: head node 0 (pipe 5) of the list anchored at cell 0,
complemented by the reader-cell node 1 (pipe 7) anchored at cell 1, and
followed in its own list by node 2 (pipe 9). -/
def examplePopHeap : PiplHeap :=
  ⟨[(0, ⟨5, some 1, some (.headOf 0), some 2⟩),
    (1, ⟨7, some 0, some (.headOf 1), none⟩),
    (2, ⟨9, none, some (.nextOf 0), none⟩)],
   [(0, some 0), (1, some 1)]⟩

/-- Idle managed context: a placeholder with no blockers and no finishers. -/
def exampleIdle : Sys :=
  ⟨[(0, ⟨true, false, false, false, false, none, [emptyFrame], 0, true, none, 0⟩)],
   [0], some 0⟩

/-- Unkilled running worker out of any pool, about to yield. -/
def exampleWorker : Pipe :=
  ⟨true, false, false, false, false, none, [emptyFrame], 0, false, none, 0⟩

/-- Snapshot holding only `exampleWorker` as pipe 3. -/
def exampleYieldSys : Sys := ⟨[(3, exampleWorker)], [], none⟩

/-- Drain whose top frame truncation counter is at the maximum. -/
def exampleSaturated : Sys :=
  ⟨[(0, ⟨true, false, false, false, false, none, [emptyFrame], 0, true, none, 0⟩),
    (2, ⟨true, false, false, false, false, some 0, [⟨U32 - 1, [], []⟩], 0, false, none, 0⟩)],
   [], some 0⟩

/-- Killed managed context for the truncation-polling claim. -/
def exampleKilledCtx : Sys :=
  ⟨[(4, ⟨true, true, false, false, false, none, [emptyFrame], 0, false, none, 0⟩)],
   [], some 4⟩

/-- Valid worker that has already yielded. -/
def exampleYieldedPipe : Pipe :=
  ⟨true, false, false, true, false, none, [emptyFrame], 0, false, none, 0⟩

/-- Snapshot holding only the yielded worker `exampleYieldedPipe` as pipe 9. -/
def exampleYieldedSys : Sys := ⟨[(9, exampleYieldedPipe)], [], none⟩

/-- Relation between two snapshots asserting that no pipe was created and
no pipe's yielded flag was reset: every pipe present afterwards was present
before with a monotone yielded flag. -/
def MonoStep (s s2 : Sys) : Prop :=
  ∀ i p2, findPipe s2 i = some p2 →
    ∃ p, findPipe s i = some p ∧ (p.yielded = true → p2.yielded = true)

/-- Yielded-flag monotonicity between two snapshots: any pipe present in
both has a monotone yielded flag. -/
def YieldedPreserved (s s2 : Sys) : Prop :=
  ∀ i p p2, findPipe s i = some p → findPipe s2 i = some p2 →
    p.yielded = true → p2.yielded = true

/-- First-error-wins across one operation: a nonzero incoming error channel
value comes out unchanged. -/
def ErrPres (e e2 : Int) : Prop := e ≠ 0 → e2 = e

/-- First-error-wins up to the yield protocols' error promotion: a nonzero
incoming channel is either returned unchanged, or moved verbatim into the
status field of the yielding pipe with the channel cleared to zero. -/
def ErrMoved (s2 : Sys) (sid : PipeId) (e e2 : Int) : Prop :=
  e ≠ 0 → e2 = e ∨ (e2 = 0 ∧ (findPipe s2 sid).map Pipe.status = some e)

theorem lookup_map_update (l : List (PipeId × Pipe)) (i : PipeId) (f : Pipe → Pipe) :
    (l.map (fun x => if x.1 = i then (x.1, f x.2) else x)).find? (fun x => x.1 == i)
      = (l.find? (fun x => x.1 == i)).map (fun x => (x.1, f x.2)) := by
  induction l with
  | nil => rfl
  | cons a t ih =>
    by_cases h : a.1 = i
    · simp [List.find?_cons, h]
    · simp only [List.map_cons, List.find?_cons, if_neg h]
      have hb : (a.1 == i) = false := by simp [h]
      rw [hb]
      exact ih

theorem lookup_map_update_ne (l : List (PipeId × Pipe)) (i j : PipeId)
    (f : Pipe → Pipe) (h : j ≠ i) :
    (l.map (fun x => if x.1 = i then (x.1, f x.2) else x)).find? (fun x => x.1 == j)
      = l.find? (fun x => x.1 == j) := by
  induction l with
  | nil => rfl
  | cons a t ih =>
    by_cases ha : a.1 = i
    · have haj : (a.1 == j) = false := by simp [ha, Ne.symm h]
      simp only [List.map_cons, List.find?_cons, if_pos ha, haj]
      exact ih
    · simp only [List.map_cons, List.find?_cons, if_neg ha]
      by_cases hj : a.1 = j
      · simp [hj]
      · have haj : (a.1 == j) = false := by simp [hj]
        rw [haj]
        exact ih

theorem lookup_filter_out (l : List (PipeId × Pipe)) (i : PipeId) :
    (l.filter (fun x => x.1 ≠ i)).find? (fun x => x.1 == i) = none := by
  induction l with
  | nil => rfl
  | cons a t ih =>
    by_cases h : a.1 = i
    · rw [List.filter_cons]
      simp only [h, ne_eq, not_true_eq_false, decide_False, if_false]
      exact ih
    · have hb : (a.1 == i) = false := by simp [h]
      rw [List.filter_cons]
      simp only [h, ne_eq, not_false_eq_true, decide_True, if_true, List.find?_cons, hb]
      exact ih

theorem lookup_filter_out_ne (l : List (PipeId × Pipe)) (i j : PipeId) (h : j ≠ i) :
    (l.filter (fun x => x.1 ≠ i)).find? (fun x => x.1 == j)
      = l.find? (fun x => x.1 == j) := by
  induction l with
  | nil => rfl
  | cons a t ih =>
    by_cases ha : a.1 = i
    · have haj : (a.1 == j) = false := by simp [ha, Ne.symm h]
      rw [List.filter_cons, List.find?_cons, haj]
      simpa [ha] using ih
    · by_cases hj : a.1 = j
      · have haj : (a.1 == j) = true := by simp [hj]
        rw [List.filter_cons, List.find?_cons, haj]
        simp [ha, List.find?_cons, haj]
      · have haj : (a.1 == j) = false := by simp [hj]
        rw [List.filter_cons, List.find?_cons, haj]
        simpa [ha, List.find?_cons, haj] using ih

theorem findPipe_updatePipe_self (s : Sys) (i : PipeId) (f : Pipe → Pipe) :
    findPipe (updatePipe s i f) i = (findPipe s i).map f := by
  simp only [findPipe, updatePipe]
  rw [lookup_map_update]
  cases s.pipes.find? (fun x => x.1 == i) <;> rfl

theorem findPipe_updatePipe_ne (s : Sys) (i j : PipeId) (f : Pipe → Pipe)
    (h : j ≠ i) : findPipe (updatePipe s i f) j = findPipe s j := by
  simp only [findPipe, updatePipe]
  rw [lookup_map_update_ne _ _ _ _ h]

theorem findPipe_removePipe_self (s : Sys) (i : PipeId) :
    findPipe (removePipe s i) i = none := by
  simp only [findPipe, removePipe]
  rw [lookup_filter_out]
  rfl

theorem findPipe_removePipe_ne (s : Sys) (i j : PipeId) (h : j ≠ i) :
    findPipe (removePipe s i) j = findPipe s j := by
  simp only [findPipe, removePipe]
  rw [lookup_filter_out_ne _ _ _ h]

/-- Claim C4, counterexample: on the two-node complementary pair
`examplePair`, whose head entry has pipe 1 and whose complement has pipe 2,
popped returns pipe 1 — the head entry's own pipe — and not pipe 2, the
pipe of the head's complement as the claim states. -/
theorem popped_returns_own_pipe_cex :
    popped examplePair 0 0 = (⟨[], [(0, none), (1, none)]⟩, 0, some 1) ∧
      ((examplePair.node 0).map (·.complement)).getD none = some 1 ∧
      ((examplePair.node 1).map (·.pipe)) = some 2 ∧
      some (1 : Nat) ≠ some 2 := by
  refine ⟨by decide, by decide, by decide, by decide⟩

theorem plFind_map_update {β : Type} (l : List (Nat × β)) (i : Nat) (f : β → β) :
    (l.map (fun x => if x.1 = i then (x.1, f x.2) else x)).find? (fun x => x.1 == i)
      = (l.find? (fun x => x.1 == i)).map (fun x => (x.1, f x.2)) := by
  induction l with
  | nil => rfl
  | cons a t ih =>
    by_cases h : a.1 = i
    · simp [List.find?_cons, h]
    · simp only [List.map_cons, List.find?_cons, if_neg h]
      have hb : (a.1 == i) = false := by simp [h]
      rw [hb]
      exact ih

theorem plFind_map_update_ne {β : Type} (l : List (Nat × β)) (i j : Nat)
    (f : β → β) (h : j ≠ i) :
    (l.map (fun x => if x.1 = i then (x.1, f x.2) else x)).find? (fun x => x.1 == j)
      = l.find? (fun x => x.1 == j) := by
  induction l with
  | nil => rfl
  | cons a t ih =>
    by_cases ha : a.1 = i
    · have haj : (a.1 == j) = false := by simp [ha, Ne.symm h]
      simp only [List.map_cons, List.find?_cons, if_pos ha, haj]
      exact ih
    · simp only [List.map_cons, List.find?_cons, if_neg ha]
      by_cases hj : a.1 = j
      · simp [hj]
      · have haj : (a.1 == j) = false := by simp [hj]
        rw [haj]
        exact ih

theorem plFind_map_const {β : Type} (l : List (Nat × β)) (i : Nat) (v : β) :
    (l.map (fun x => if x.1 = i then (x.1, v) else x)).find? (fun x => x.1 == i)
      = (l.find? (fun x => x.1 == i)).map (fun x => (x.1, v)) := by
  induction l with
  | nil => rfl
  | cons a t ih =>
    by_cases h : a.1 = i
    · simp [List.find?_cons, h]
    · simp only [List.map_cons, List.find?_cons, if_neg h]
      have hb : (a.1 == i) = false := by simp [h]
      rw [hb]
      exact ih

theorem plFind_map_const_ne {β : Type} (l : List (Nat × β)) (i j : Nat)
    (v : β) (h : j ≠ i) :
    (l.map (fun x => if x.1 = i then (x.1, v) else x)).find? (fun x => x.1 == j)
      = l.find? (fun x => x.1 == j) := by
  induction l with
  | nil => rfl
  | cons a t ih =>
    by_cases ha : a.1 = i
    · have haj : (a.1 == j) = false := by simp [ha, Ne.symm h]
      simp only [List.map_cons, List.find?_cons, if_pos ha, haj]
      exact ih
    · simp only [List.map_cons, List.find?_cons, if_neg ha]
      by_cases hj : a.1 = j
      · simp [hj]
      · have haj : (a.1 == j) = false := by simp [hj]
        rw [haj]
        exact ih

theorem plFind_filter_out {β : Type} (l : List (Nat × β)) (i : Nat) :
    (l.filter (fun x => x.1 ≠ i)).find? (fun x => x.1 == i) = none := by
  induction l with
  | nil => rfl
  | cons a t ih =>
    by_cases h : a.1 = i
    · rw [List.filter_cons]
      simp only [h, ne_eq, not_true_eq_false, decide_False, if_false]
      exact ih
    · have hb : (a.1 == i) = false := by simp [h]
      rw [List.filter_cons]
      simp only [h, ne_eq, not_false_eq_true, decide_True, if_true, List.find?_cons, hb]
      exact ih

theorem plFind_filter_out_ne {β : Type} (l : List (Nat × β)) (i j : Nat) (h : j ≠ i) :
    (l.filter (fun x => x.1 ≠ i)).find? (fun x => x.1 == j)
      = l.find? (fun x => x.1 == j) := by
  induction l with
  | nil => rfl
  | cons a t ih =>
    by_cases ha : a.1 = i
    · have haj : (a.1 == j) = false := by simp [ha, Ne.symm h]
      rw [List.filter_cons, List.find?_cons, haj]
      simpa [ha] using ih
    · by_cases hj : a.1 = j
      · have haj : (a.1 == j) = true := by simp [hj]
        rw [List.filter_cons, List.find?_cons, haj]
        simp [ha, List.find?_cons, haj]
      · have haj : (a.1 == j) = false := by simp [hj]
        rw [List.filter_cons, List.find?_cons, haj]
        simpa [ha, List.find?_cons, haj] using ih

theorem node_setCell (h : PiplHeap) (c : Nat) (v : Option Nat) (j : Nat) :
    (h.setCell c v).node j = h.node j := rfl

theorem node_setNode_self (h : PiplHeap) (i : Nat) (f : PiplNode → PiplNode) :
    (h.setNode i f).node i = (h.node i).map f := by
  simp only [PiplHeap.node, PiplHeap.setNode]
  rw [plFind_map_update]
  cases h.nodes.find? (fun x => x.1 == i) <;> rfl

theorem node_setNode_ne (h : PiplHeap) (i j : Nat) (f : PiplNode → PiplNode)
    (hj : j ≠ i) : (h.setNode i f).node j = h.node j := by
  simp only [PiplHeap.node, PiplHeap.setNode]
  rw [plFind_map_update_ne _ _ _ _ hj]

theorem node_removeNode_self (h : PiplHeap) (i : Nat) :
    (h.removeNode i).node i = none := by
  simp only [PiplHeap.node, PiplHeap.removeNode]
  rw [plFind_filter_out]
  rfl

theorem node_removeNode_ne (h : PiplHeap) (i j : Nat) (hj : j ≠ i) :
    (h.removeNode i).node j = h.node j := by
  simp only [PiplHeap.node, PiplHeap.removeNode]
  rw [plFind_filter_out_ne _ _ _ hj]

theorem cell_setNode (h : PiplHeap) (i : Nat) (f : PiplNode → PiplNode) (d : Nat) :
    (h.setNode i f).cell d = h.cell d := rfl

theorem cell_removeNode (h : PiplHeap) (i d : Nat) :
    (h.removeNode i).cell d = h.cell d := rfl

theorem cell_setCell_self (h : PiplHeap) (c : Nat) (v : Option Nat)
    (hc : h.hasCell c = true) : (h.setCell c v).cell c = v := by
  simp only [PiplHeap.hasCell] at hc
  simp only [PiplHeap.cell, PiplHeap.setCell]
  rw [plFind_map_const]
  cases hfind : h.cells.find? (fun x => x.1 == c) with
  | none => rw [hfind] at hc; simp at hc
  | some p => simp

theorem cell_setCell_none_self (h : PiplHeap) (c : Nat) :
    (h.setCell c none).cell c = none := by
  simp only [PiplHeap.cell, PiplHeap.setCell]
  rw [plFind_map_const]
  cases h.cells.find? (fun x => x.1 == c) <;> rfl

theorem cell_setCell_ne (h : PiplHeap) (c : Nat) (v : Option Nat) (d : Nat)
    (hd : d ≠ c) : (h.setCell c v).cell d = h.cell d := by
  simp only [PiplHeap.cell, PiplHeap.setCell]
  rw [plFind_map_const_ne _ _ _ _ hd]

theorem hasCell_setCell (h : PiplHeap) (c : Nat) (v : Option Nat) (d : Nat) :
    (h.setCell c v).hasCell d = h.hasCell d := by
  simp only [PiplHeap.hasCell, PiplHeap.setCell]
  by_cases hdc : d = c
  · subst hdc
    rw [plFind_map_const]
    cases h.cells.find? (fun x => x.1 == d) <;> rfl
  · rw [plFind_map_const_ne _ _ _ _ hdc]

theorem hasCell_setNode (h : PiplHeap) (i : Nat) (f : PiplNode → PiplNode) (d : Nat) :
    (h.setNode i f).hasCell d = h.hasCell d := rfl

theorem hasCell_removeNode (h : PiplHeap) (i d : Nat) :
    (h.removeNode i).hasCell d = h.hasCell d := rfl

theorem hasCell_of_cell_some (h : PiplHeap) (c : Nat) (x : Nat)
    (hx : h.cell c = some x) : h.hasCell c = true := by
  simp only [PiplHeap.cell] at hx
  simp only [PiplHeap.hasCell]
  cases hfind : h.cells.find? (fun x => x.1 == c) with
  | none => rw [hfind] at hx; simp at hx
  | some p => rfl

theorem ud_nocomp_eq (H : PiplHeap) (hd : Nat) (nhd : PiplNode) (err : Int)
    (hn : H.node hd = some nhd) (hcmp : nhd.complement = none) :
    unilaterallyDelisted H (CellRef.complementOf hd) err = (H, err, none) := by
  simp [unilaterallyDelisted, readCellRef, hn, hcmp]

theorem ud_comp_eq (H : PiplHeap) (hd c g : Nat) (nhd nc : PiplNode) (err : Int)
    (hn : H.node hd = some nhd) (hcm : nhd.complement = some c) (hch : c ≠ hd)
    (hc : H.node c = some nc) (hcp : nc.pipe ≠ 0) (hcc : nc.complement = some hd)
    (hcprev : nc.prev = some (PrevRef.headOf g)) (hcnext : nc.next = none) :
    unilaterallyDelisted H (CellRef.complementOf hd) err =
      (((((H.setCell g none).setNode c
            (fun nd => { nd with prev := none, next := none })).setNode hd
            (fun nd => { nd with complement := none })).removeNode c).setNode hd
            (fun nd => { nd with complement := none }),
        err, some nc.pipe) := by
  have hread : readCellRef H (CellRef.complementOf hd) = some c := by
    simp [readCellRef, hn, hcm]
  have hsev : severed H c err =
      ((H.setCell g none).setNode c (fun nd => { nd with prev := none, next := none }),
        err, true) := by
    simp [severed, hc, hcprev, hcnext, writePrev]
  have h3c : ((H.setCell g none).setNode c
        (fun nd => { nd with prev := none, next := none })).node c
      = some { nc with prev := none, next := none } := by
    rw [node_setNode_self, node_setCell, hc]
    rfl
  have h3hd : ((H.setCell g none).setNode c
        (fun nd => { nd with prev := none, next := none })).node hd = some nhd := by
    rw [node_setNode_ne _ _ _ _ (Ne.symm hch), node_setCell, hn]
  have hfr : freed ((H.setCell g none).setNode c
        (fun nd => { nd with prev := none, next := none })) c err =
      ((((H.setCell g none).setNode c
            (fun nd => { nd with prev := none, next := none })).setNode hd
            (fun nd => { nd with complement := none })).removeNode c, err, true) := by
    simp [freed, h3c, h3hd, hcc, hcm]
  simp [unilaterallyDelisted, hread, hc, hcp, hsev, hfr, writeCellRef]

theorem ud_head_eq (H : PiplHeap) (f hd : Nat) (m : PiplNode) (err : Int)
    (hcf : H.cell f = some hd) (hn : H.node hd = some m) (hp : m.pipe ≠ 0)
    (hprev : m.prev = some (PrevRef.headOf f)) (hcmp : m.complement = none)
    (hnx : ∀ n2, m.next = some n2 → n2 ≠ hd) :
    unilaterallyDelisted H (CellRef.head f) err =
      ((((match m.next with
          | none => H.setCell f m.next
          | some n2 => (H.setCell f m.next).setNode n2
              (fun nd => { nd with prev := some (PrevRef.headOf f) })).setNode hd
          (fun nd => { nd with prev := none, next := none })).removeNode hd).setCell f
          none,
        err, some m.pipe) := by
  cases hmn : m.next with
  | none =>
    have hsev : severed H hd err =
        ((H.setCell f none).setNode hd
          (fun nd => { nd with prev := none, next := none }), err, true) := by
      simp [severed, hn, hprev, hmn, writePrev]
    have h1hd : ((H.setCell f none).setNode hd
          (fun nd => { nd with prev := none, next := none })).node hd
        = some { m with prev := none, next := none } := by
      rw [node_setNode_self, node_setCell, hn]
      rfl
    have hfr : freed ((H.setCell f none).setNode hd
          (fun nd => { nd with prev := none, next := none })) hd err =
        (((H.setCell f none).setNode hd
            (fun nd => { nd with prev := none, next := none })).removeNode hd,
          err, true) := by
      simp [freed, h1hd, hcmp]
    simp [unilaterallyDelisted, readCellRef, hcf, hn, hp, hsev, hfr, writeCellRef, hmn]
  | some n2 =>
    have hne : n2 ≠ hd := hnx n2 hmn
    have hsev : severed H hd err =
        (((H.setCell f (some n2)).setNode n2
            (fun nd => { nd with prev := some (PrevRef.headOf f) })).setNode hd
          (fun nd => { nd with prev := none, next := none }), err, true) := by
      simp [severed, hn, hprev, hmn, writePrev]
    have h1hd : (((H.setCell f (some n2)).setNode n2
            (fun nd => { nd with prev := some (PrevRef.headOf f) })).setNode hd
          (fun nd => { nd with prev := none, next := none })).node hd
        = some { m with prev := none, next := none } := by
      rw [node_setNode_self, node_setNode_ne _ _ _ _ (Ne.symm hne), node_setCell, hn]
      rfl
    have hfr : freed (((H.setCell f (some n2)).setNode n2
            (fun nd => { nd with prev := some (PrevRef.headOf f) })).setNode hd
          (fun nd => { nd with prev := none, next := none })) hd err =
        ((((H.setCell f (some n2)).setNode n2
              (fun nd => { nd with prev := some (PrevRef.headOf f) })).setNode hd
            (fun nd => { nd with prev := none, next := none })).removeNode hd,
          err, true) := by
      simp [freed, h1hd, hcmp]
    simp [unilaterallyDelisted, readCellRef, hcf, hn, hp, hsev, hfr, writeCellRef, hmn]

/-- Claim C4, amended: in every heap, for every pipe list whose head cell
holds a well-formed head entry hd — whatever the length of its tail and
whether or not hd has a complement — popped removes hd from the list
(leaving the head cell pointing at hd's saved successor), frees hd, frees
hd's complement when hd has one (also clearing the complementary reader
cell), leaves the error channel untouched, and returns the pipe of hd
itself, not the pipe of hd's complement. -/
theorem popped_removes_and_returns_head (H : PiplHeap) (f hd : Nat) (nhd : PiplNode)
    (err : Int)
    (hcf : H.cell f = some hd)
    (hn : H.node hd = some nhd)
    (hp : nhd.pipe ≠ 0)
    (hprev : nhd.prev = some (PrevRef.headOf f))
    (hnx : ∀ n2, nhd.next = some n2 → n2 ≠ hd)
    (hcomp : nhd.complement = none ∨
      ∃ c nc g, nhd.complement = some c ∧ c ≠ hd ∧ H.node c = some nc ∧
        nc.pipe ≠ 0 ∧ nc.complement = some hd ∧
        nc.prev = some (PrevRef.headOf g) ∧ nc.next = none ∧ g ≠ f ∧
        (∀ n2, nhd.next = some n2 → n2 ≠ c)) :
    (popped H f err).2.2 = some nhd.pipe ∧
      (popped H f err).2.1 = err ∧
      ((popped H f err).1).node hd = none ∧
      ((popped H f err).1).cell f = nhd.next ∧
      (∀ c, nhd.complement = some c → ((popped H f err).1).node c = none) ∧
      (∀ c nc g, nhd.complement = some c → H.node c = some nc →
        nc.prev = some (PrevRef.headOf g) → ((popped H f err).1).cell g = none) := by
  rcases hcomp with hc0 | ⟨c, nc, g, hcm, hch, hc, hcp, hcc, hcprev, hcnext, hgf, hnxc⟩
  · have hU1 := ud_nocomp_eq H hd nhd err hn hc0
    have hU2 := ud_head_eq H f hd nhd err hcf hn hp hprev hc0 hnx
    have hpop : popped H f err =
        (((((match nhd.next with
             | none => H.setCell f nhd.next
             | some n2 => (H.setCell f nhd.next).setNode n2
                 (fun nd => { nd with prev := some (PrevRef.headOf f) })).setNode hd
             (fun nd => { nd with prev := none, next := none })).removeNode hd).setCell
             f none).setCell f nhd.next,
          err, some nhd.pipe) := by
      simp [popped, hcf, hn, hU1, hU2]
    rw [hpop]
    refine ⟨rfl, rfl, ?_, ?_, ?_, ?_⟩
    · simp only [node_setCell]
      rw [node_removeNode_self]
    · cases hmn : nhd.next with
      | none => rw [cell_setCell_none_self]
      | some n2 =>
        have hhas : (((((H.setCell f (some n2)).setNode n2
              (fun nd => { nd with prev := some (PrevRef.headOf f) })).setNode hd
              (fun nd => { nd with prev := none, next := none })).removeNode
              hd).setCell f none).hasCell f = true := by
          simp only [hasCell_setCell, hasCell_setNode, hasCell_removeNode]
          exact hasCell_of_cell_some H f hd hcf
        rw [cell_setCell_self _ _ _ hhas]
    · intro c2 hcc2
      rw [hc0] at hcc2
      simp at hcc2
    · intro c2 nc2 g2 h1 h2 h3
      rw [hc0] at h1
      simp at h1
  · have hU1 := ud_comp_eq H hd c g nhd nc err hn hcm hch hc hcp hcc hcprev hcnext
    have hn5 : (((((H.setCell g none).setNode c
          (fun nd => { nd with prev := none, next := none })).setNode hd
          (fun nd => { nd with complement := none })).removeNode c).setNode hd
          (fun nd => { nd with complement := none })).node hd
        = some ⟨nhd.pipe, none, nhd.prev, nhd.next⟩ := by
      rw [node_setNode_self, node_removeNode_ne _ _ _ (Ne.symm hch),
        node_setNode_self, node_setNode_ne _ _ _ _ (Ne.symm hch), node_setCell, hn]
      rfl
    have hcf5 : (((((H.setCell g none).setNode c
          (fun nd => { nd with prev := none, next := none })).setNode hd
          (fun nd => { nd with complement := none })).removeNode c).setNode hd
          (fun nd => { nd with complement := none })).cell f = some hd := by
      rw [cell_setNode, cell_removeNode, cell_setNode, cell_setNode,
        cell_setCell_ne _ _ _ _ (Ne.symm hgf)]
      exact hcf
    have hp5 : (⟨nhd.pipe, none, nhd.prev, nhd.next⟩ : PiplNode).pipe ≠ 0 := hp
    have hprev5 : (⟨nhd.pipe, none, nhd.prev, nhd.next⟩ : PiplNode).prev
        = some (PrevRef.headOf f) := hprev
    have hnx5 : ∀ n2, (⟨nhd.pipe, none, nhd.prev, nhd.next⟩ : PiplNode).next
        = some n2 → n2 ≠ hd := hnx
    have hU2 := ud_head_eq (((((H.setCell g none).setNode c
          (fun nd => { nd with prev := none, next := none })).setNode hd
          (fun nd => { nd with complement := none })).removeNode c).setNode hd
          (fun nd => { nd with complement := none })) f hd
        ⟨nhd.pipe, none, nhd.prev, nhd.next⟩ err hcf5 hn5 hp5 hprev5 rfl hnx5
    have hpop : popped H f err =
        (((((match nhd.next with
             | none => (((((H.setCell g none).setNode c
                   (fun nd => { nd with prev := none, next := none })).setNode hd
                   (fun nd => { nd with complement := none })).removeNode c).setNode hd
                   (fun nd => { nd with complement := none })).setCell f nhd.next
             | some n2 => ((((((H.setCell g none).setNode c
                   (fun nd => { nd with prev := none, next := none })).setNode hd
                   (fun nd => { nd with complement := none })).removeNode c).setNode hd
                   (fun nd => { nd with complement := none })).setCell f
                   nhd.next).setNode n2
                 (fun nd => { nd with prev := some (PrevRef.headOf f) })).setNode hd
             (fun nd => { nd with prev := none, next := none })).removeNode hd).setCell
             f none).setCell f nhd.next,
          err, some nhd.pipe) := by
      simp [popped, hcf, hn, hU1, hU2]
    rw [hpop]
    refine ⟨rfl, rfl, ?_, ?_, ?_, ?_⟩
    · simp only [node_setCell]
      rw [node_removeNode_self]
    · cases hmn : nhd.next with
      | none => rw [cell_setCell_none_self]
      | some n2 =>
        have hhas : ((((((((((H.setCell g none).setNode c
              (fun nd => { nd with prev := none, next := none })).setNode hd
              (fun nd => { nd with complement := none })).removeNode c).setNode hd
              (fun nd => { nd with complement := none })).setCell f
              (some n2)).setNode n2
              (fun nd => { nd with prev := some (PrevRef.headOf f) })).setNode hd
              (fun nd => { nd with prev := none, next := none })).removeNode
              hd).setCell f none).hasCell f = true := by
          simp only [hasCell_setCell, hasCell_setNode, hasCell_removeNode]
          exact hasCell_of_cell_some H f hd hcf
        rw [cell_setCell_self _ _ _ hhas]
    · intro c2 hcc2
      have hc2 : c2 = c := by
        rw [hcm] at hcc2
        exact (Option.some.inj hcc2).symm
      subst hc2
      cases hmn : nhd.next with
      | none =>
        simp only [node_setCell, node_removeNode_ne _ _ _ hch,
          node_setNode_ne _ _ _ _ hch]
        rw [node_removeNode_self]
      | some n2 =>
        have hn2c : c2 ≠ n2 := Ne.symm (hnxc n2 hmn)
        simp only [node_setCell, node_removeNode_ne _ _ _ hch,
          node_setNode_ne _ _ _ _ hch, node_setNode_ne _ _ _ _ hn2c]
        rw [node_removeNode_self]
    · intro c2 nc2 g2 h1 h2 h3
      have hc2 : c2 = c := by
        rw [hcm] at h1
        exact (Option.some.inj h1).symm
      subst hc2
      have hnc2 : nc2 = nc := by
        rw [hc] at h2
        exact (Option.some.inj h2).symm
      subst hnc2
      have hg2 : g2 = g := by
        have hx := hcprev.symm.trans h3
        exact (PrevRef.headOf.inj (Option.some.inj hx)).symm
      subst hg2
      cases hmn : nhd.next with
      | none =>
        simp only [cell_setNode, cell_removeNode, cell_setCell_ne _ _ _ _ hgf]
        rw [cell_setCell_none_self]
      | some n2 =>
        simp only [cell_setNode, cell_removeNode, cell_setCell_ne _ _ _ _ hgf]
        rw [cell_setCell_none_self]

/-- Witness for the popped characterisation: on the three-node heap
`examplePopHeap` the pop of the list anchored at cell 0 returns pipe 5 —
the head entry's own pipe — removes the head node, and leaves the anchor
cell pointing at the successor node 2. -/
theorem popped_removes_and_returns_head_witness :
    (popped examplePopHeap 0 0).2.2 = some 5 ∧
      ((popped examplePopHeap 0 0).1).node 0 = none ∧
      ((popped examplePopHeap 0 0).1).cell 0 = some 2 := by
  have h := popped_removes_and_returns_head examplePopHeap 0 0
      ⟨5, some 1, some (.headOf 0), some 2⟩ 0
      (by decide) (by decide) (by decide) (by decide)
      (by intro n2 hn2; injection hn2 with h2; subst h2; decide)
      (Or.inr ⟨1, ⟨7, some 0, some (.headOf 1), none⟩, 1, by decide, by decide,
        by decide, by decide, by decide, by decide, by decide, by decide,
        by intro n2 hn2; injection hn2 with h2; subst h2; decide⟩)
  exact ⟨h.1, h.2.2.1, h.2.2.2.1⟩

/-- Claim C2, counterexample: `exampleReaderPlaceholder` has a reader, so
the claimed characterisation of retirability calls it non-retirable, yet
the code reports it retirable: the code never consults the reader slot and
accepts any placeholder, finished or not. -/
theorem retirable_ignores_reader_cex :
    (retirable (some exampleReaderPlaceholder) 0).1 = true ∧
      retirableClaim exampleReaderPlaceholder = false := by
  refine ⟨by decide, by decide⟩

/-- Claim C2, amended: for every valid pipe p, retirable(p) returns true
iff p.zombie is set, or the scope stack is exactly the sentinel frame with
no blockers and no finishers and p is either a placeholder or a worker
both killed and yielded.  (The claim's reader condition and its
"finished" qualification on placeholders are not checked by the code.) -/
theorem retirable_characterisation (p : Pipe) (err : Int) (hv : p.valid = true) :
    (retirable (some p) err).1 = true ↔
      (p.zombie = true ∨
        ∃ fr, p.scope = [fr] ∧ fr.blockers = [] ∧ fr.finishers = [] ∧
          (p.placeholder = true ∨ (p.yielded = true ∧ p.killed = true))) := by
  unfold retirable
  by_cases hz : p.zombie = true
  · simp [hv, hz]
  · cases hsc : p.scope with
    | nil => simp [hv, hz, hsc]
    | cons e rest =>
      cases rest with
      | nil =>
        by_cases hb : e.blockers = [] <;> by_cases hf : e.finishers = [] <;>
          by_cases hp : p.placeholder = true <;> by_cases hy : p.yielded = true <;>
          by_cases hk : p.killed = true <;>
          simp_all [List.cons.injEq]
      | cons e2 rest2 => simp [hv, hz, hsc]

/-- Witness for the amended retirability characterisation at the valid
zombie pipe `exampleZombie`. -/
theorem retirable_characterisation_witness :
    (retirable (some exampleZombie) 0).1 = true :=
  (retirable_characterisation exampleZombie 0 (by decide)).mpr (Or.inl (by decide))

/-- Claim C8: when a caller passes a null error channel, the API entry
prologue substitutes the internal discard location, resets it to zero, and
leaves the effective channel holding exactly the value a fresh
zero-initialized channel would hold. -/
theorem api_entry_null_channel (ignored : Int) :
    apiEntryChannel none ignored = (0, 0) ∧
      (apiEntryChannel none ignored).1 = (apiEntryChannel (some 0) ignored).1 := by
  exact ⟨rfl, rfl⟩

/-- Claim C10: a managed caller whose top scope frame has no finishers and
no blockers, and whose pipe is not killed, gets null back from select at
once — no blocking, no state change, and no change to the error channel. -/
theorem select_idle_returns_null (s : Sys) (did : PipeId) (d : Pipe)
    (fr : ScopeFrame) (rest : List ScopeFrame) (err : Int)
    (hc : s.context = some did) (hd : findPipe s did = some d)
    (hv : d.valid = true) (hk : d.killed = false)
    (hs : d.scope = fr :: rest) (hf : fr.finishers = []) (hb : fr.blockers = []) :
    nthmSelect s err = SelectOutcome.ret none s err := by
  unfold nthmSelect
  simp only [hc]
  simp only [hd]
  simp [hv, hk, hs, hf, hb]

/-- Witness for the idle select theorem on the snapshot `exampleIdle`. -/
theorem select_idle_returns_null_witness :
    nthmSelect exampleIdle 0 = SelectOutcome.ret none exampleIdle 0 :=
  select_idle_returns_null exampleIdle 0
    ⟨true, false, false, false, false, none, [emptyFrame], 0, true, none, 0⟩
    emptyFrame [] 0 rfl (by decide) (by decide) (by decide) (by decide) (by decide) (by decide)

/-- Claim C3: for every valid pipe s and every valid pipe d with a
well-formed (non-empty) scope stack, drained_by(s, d) returns true iff s
has a reader entry whose pipe is d and s.depth equals the current scope
level of d, the number of enclosing frames beneath d's top scope frame. -/
theorem drainedBy_characterisation (s : Sys) (sid did : PipeId) (ps pd : Pipe)
    (err : Int) (hs : findPipe s sid = some ps) (hsv : ps.valid = true)
    (hd : findPipe s did = some pd) (hdv : pd.valid = true)
    (hds : pd.scope ≠ []) :
    (drainedBy s sid (some did) err).1 = true ↔
      (ps.reader = some did ∧ ps.depth = pd.scope.length - 1) := by
  unfold drainedBy scopeLevel
  simp only [hs]
  cases hsc : pd.scope with
  | nil => exact absurd hsc hds
  | cons fr tl =>
    cases hr : ps.reader with
    | none => simp [hsv, hr]
    | some r =>
      by_cases hrd : did = r
      · subst hrd
        simp [hsv, hd, hdv, hsc, hr]
      · simp only [hsv, hr, hrd]
        simp [hrd]
        exact fun h => absurd h.symm hrd

/-- Witness for the drained_by characterisation: in `exampleLevels`, pipe 1
is drained by pipe 0, whose scope level is 1, matching depth 1. -/
theorem drainedBy_characterisation_witness :
    (drainedBy exampleLevels 1 (some 0) 0).1 = true :=
  (drainedBy_characterisation exampleLevels 1 0 exampleLevelSource
      exampleLevelDrain 0 (by decide) (by decide) (by decide) (by decide)
      (by decide)).mpr (by decide)

/-- Claim C7: the scope-frame truncation counter saturates at the maximum
unsigned value: truncate on a drained source, and truncate_all on the
current context, leave a counter already at the maximum unchanged and bump
any smaller counter by exactly one. -/
theorem truncation_saturates (s : Sys) (sid : PipeId) (p : Pipe)
    (fr : ScopeFrame) (rest : List ScopeFrame) (err : Int)
    (hp : findPipe s sid = some p) (hv : p.valid = true)
    (hsc : p.scope = fr :: rest) (hcnt : fr.truncation < U32) :
    ((s.context ≠ none) → (drainedBy s sid s.context err).1 = true →
      (findPipe (nthmTruncate s (some sid) err).1 sid).map Pipe.scope
        = some ((if fr.truncation = U32 - 1 then fr
            else { fr with truncation := fr.truncation + 1 }) :: rest)) ∧
    ((s.context = some sid) →
      (findPipe (nthmTruncateAll s err).1 sid).map Pipe.scope
        = some ((if fr.truncation = U32 - 1 then fr
            else { fr with truncation := fr.truncation + 1 }) :: rest)) := by
  have hbump : ∀ t : Nat, t < U32 →
      ((t + 1) % U32 = 0 ↔ t = U32 - 1) := by
    intro t ht
    constructor
    · intro h0
      rcases Nat.lt_or_ge (t + 1) U32 with hlt | hge
      · rw [Nat.mod_eq_of_lt hlt] at h0
        exact absurd h0 (Nat.succ_ne_zero t)
      · omega
    · intro hmax
      subst hmax
      have : U32 - 1 + 1 = U32 := by
        have : 0 < U32 := by norm_num [U32]
        omega
      rw [this, Nat.mod_self]
  constructor
  · intro hctx hdr
    cases hco : s.context with
    | none => exact absurd hco hctx
    | some did =>
      unfold nthmTruncate
      rw [hco] at hdr
      simp only [hp, hv, hco]
      rcases hdb : drainedBy s sid (some did) err with ⟨dr, e1⟩
      rw [hdb] at hdr
      simp only at hdr
      simp only [hdb, hdr, hsc]
      by_cases hmax : fr.truncation = U32 - 1
      · have h0 : (fr.truncation + 1) % U32 = 0 := (hbump _ hcnt).mpr hmax
        rw [if_pos hmax]
        simp [h0, hp, hsc]
      · have h0 : (fr.truncation + 1) % U32 ≠ 0 := by
          intro hc
          exact hmax ((hbump _ hcnt).mp hc)
        have hlt : fr.truncation + 1 < U32 := by
          rcases Nat.lt_or_ge (fr.truncation + 1) U32 with hlt | hge
          · exact hlt
          · exfalso
            apply hmax
            omega
        rw [if_neg hmax, if_pos h0]
        show (findPipe (updatePipe s sid _) sid).map Pipe.scope = _
        rw [findPipe_updatePipe_self, hp]
        simp [Nat.mod_eq_of_lt hlt]
  · intro hctx
    unfold nthmTruncateAll
    rw [hctx]
    simp only [hp, hv, hsc]
    by_cases hmax : fr.truncation = U32 - 1
    · have h0 : (fr.truncation + 1) % U32 = 0 := (hbump _ hcnt).mpr hmax
      rw [if_pos hmax]
      simp [h0, hp, hsc]
    · have h0 : (fr.truncation + 1) % U32 ≠ 0 := by
        intro hc
        exact hmax ((hbump _ hcnt).mp hc)
      have hlt : fr.truncation + 1 < U32 := by
        rcases Nat.lt_or_ge (fr.truncation + 1) U32 with hlt | hge
        · exact hlt
        · exfalso
          apply hmax
          omega
      rw [if_neg hmax, if_pos h0]
      show (findPipe (updatePipe s sid _) sid).map Pipe.scope = _
      rw [findPipe_updatePipe_self, hp]
      simp [Nat.mod_eq_of_lt hlt]

/-- Witness for truncation saturation: in `exampleSaturated` the source
pipe 2 holds the maximal counter, and truncating leaves it maximal. -/
theorem truncation_saturates_witness :
    (findPipe (nthmTruncate exampleSaturated (some 2) 0).1 2).map Pipe.scope
      = some [(⟨U32 - 1, [], []⟩ : ScopeFrame)] := by
  have h := (truncation_saturates exampleSaturated 2
      ⟨true, false, false, false, false, some 0, [⟨U32 - 1, [], []⟩], 0, false, none, 0⟩
      ⟨U32 - 1, [], []⟩ [] 0 (by decide) (by decide) (by decide)
      (by norm_num [U32])).1 (by decide) (by decide)
  simpa using h

/-- Claim C9: a worker whose context pipe has been killed or has yielded
sees a nonzero value from nthm_truncated even when no truncation counter
was ever bumped, because heritably_truncated reports truncation whenever
the source itself is killed or yielded. -/
theorem truncated_nonzero_when_killed_or_yielded (s : Sys) (sid : PipeId)
    (p : Pipe) (err : Int) (hc : s.context = some sid)
    (hp : findPipe s sid = some p) (hv : p.valid = true) (hsc : p.scope ≠ [])
    (hky : p.killed = true ∨ p.yielded = true) :
    (nthmTruncated s err).1 ≠ 0 ∧ (heritablyTruncated s sid err).1 = 1 := by
  have hherit : (heritablyTruncated s sid err).1 = 1 := by
    unfold heritablyTruncated
    simp only [hp, hv]
    by_cases hy : p.yielded = true
    · simp [hy]
    · rcases hky with hk | hy2
      · simp [hy, hk]
      · exact absurd hy2 hy
  refine ⟨?_, hherit⟩
  unfold nthmTruncated
  rw [hc]
  simp only [hp, hv]
  cases hscc : p.scope with
  | nil => exact absurd hscc hsc
  | cons fr rest =>
    by_cases ht : fr.truncation = 0
    · simp only [ht, ite_false]
      simp [hherit]
    · simp [ht]

/-- Witness for the killed-context truncation claim on `exampleKilledCtx`. -/
theorem truncated_nonzero_witness :
    (nthmTruncated exampleKilledCtx 0).1 ≠ 0 :=
  (truncated_nonzero_when_killed_or_yielded exampleKilledCtx 4
      ⟨true, true, false, false, false, none, [emptyFrame], 0, false, none, 0⟩
      0 rfl (by decide) (by decide) (by decide) (Or.inl (by decide))).1

/-- Claim C1, evaluation at the failing input: with the context drain
killed before the tethered source yields, the read exits its wait and
returns null, but leaves the error channel at 0 instead of KILLED, while
select at the same snapshot does surface KILLED. -/
theorem tethered_read_killed_drain_eval :
    tetheredRead exampleKilledDrain 1 0
        = ReadOutcome.ret none exampleKilledDrainAfter 0 ∧
      nthmSelect exampleKilledDrain 0
        = SelectOutcome.ret none exampleKilledDrain NTHM_KILLED ∧
      (0 : Int) ≠ NTHM_KILLED := by
  refine ⟨by decide, by decide, by decide⟩

theorem monoStep_refl (s : Sys) : MonoStep s s :=
  fun _ p2 h => ⟨p2, h, fun hy => hy⟩

theorem monoStep_trans {s1 s2 s3 : Sys} (h12 : MonoStep s1 s2)
    (h23 : MonoStep s2 s3) : MonoStep s1 s3 := by
  intro i p3 h3
  obtain ⟨p2, h2, hi2⟩ := h23 i p3 h3
  obtain ⟨p1, h1, hi1⟩ := h12 i p2 h2
  exact ⟨p1, h1, fun hy => hi2 (hi1 hy)⟩

theorem monoStep_updatePipe (s : Sys) (i : PipeId) (f : Pipe → Pipe)
    (hf : ∀ p, p.yielded = true → (f p).yielded = true) :
    MonoStep s (updatePipe s i f) := by
  intro j p2 h2
  by_cases hj : j = i
  · subst hj
    rw [findPipe_updatePipe_self] at h2
    cases hp : findPipe s j with
    | none => rw [hp] at h2; cases h2
    | some p =>
      rw [hp] at h2
      have h2' : f p = p2 := by simpa using h2
      exact ⟨p, rfl, by rw [← h2']; exact hf p⟩
  · rw [findPipe_updatePipe_ne _ _ _ _ hj] at h2
    exact ⟨p2, h2, id⟩

theorem monoStep_removePipe (s : Sys) (i : PipeId) :
    MonoStep s (removePipe s i) := by
  intro j p2 h2
  by_cases hj : j = i
  · subst hj
    rw [findPipe_removePipe_self] at h2
    cases h2
  · rw [findPipe_removePipe_ne _ _ _ hj] at h2
    exact ⟨p2, h2, id⟩

theorem monoStep_pool (s : Sys) (r : List PipeId) :
    MonoStep s { s with rootPool := r } :=
  fun _ p2 h2 => ⟨p2, h2, id⟩

theorem monoStep_context (s : Sys) (c : Option PipeId) :
    MonoStep s { s with context := c } :=
  fun _ p2 h2 => ⟨p2, h2, id⟩

theorem mono_scopeEntered (s : Sys) (i : PipeId) (err : Int) :
    MonoStep s (scopeEntered s i err).1 := by
  unfold scopeEntered
  split
  · exact monoStep_refl s
  · split
    · exact monoStep_refl s
    · exact monoStep_updatePipe s i _ (fun p hy => hy)

theorem mono_scopeExited (s : Sys) (i : PipeId) (err : Int) :
    MonoStep s (scopeExited s i err).1 := by
  unfold scopeExited
  split
  · exact monoStep_refl s
  · split
    · exact monoStep_refl s
    · split
      · exact monoStep_refl s
      · split
        · exact monoStep_refl s
        · split
          · exact monoStep_refl s
          · exact monoStep_updatePipe s i _ (fun p hy => hy)

theorem mono_retired (s : Sys) (i : PipeId) (err : Int) :
    MonoStep s (retired s i err).1 := by
  unfold retired
  split
  · exact monoStep_refl s
  · split
    · exact monoStep_refl s
    · split
      · exact monoStep_refl s
      · split
        · exact monoStep_refl s
        · split
          next s1 e1 ok heq =>
            have h1 : MonoStep s s1 := by
              have h := mono_scopeExited s i err
              rw [heq] at h
              exact h
            split
            · exact h1
            · exact monoStep_trans h1 (monoStep_removePipe s1 i)

theorem monoStep_of_pipes_eq (s s2 : Sys) (h : s2.pipes = s.pipes) :
    MonoStep s s2 := by
  intro i p2 h2
  refine ⟨p2, ?_, id⟩
  unfold findPipe at h2 ⊢
  rw [h] at h2
  exact h2

theorem monoStep_ctxIf {s1 s2 : Sys} (h : MonoStep s1 s2) (c : Bool)
    (cv : Option PipeId) :
    MonoStep s1 (if c = true then { s2 with context := cv } else s2) := by
  by_cases hc : c = true
  · rw [if_pos hc]
    exact monoStep_trans h (monoStep_context s2 cv)
  · rw [if_neg hc]
    exact h

theorem mono_placed (s : Sys) (i : PipeId) (err : Int) :
    MonoStep s (placed s i err).1 := by
  unfold placed
  split
  · exact monoStep_refl s
  · split
    · exact monoStep_refl s
    · split
      · exact monoStep_refl s
      · exact monoStep_trans
          (monoStep_updatePipe s i (fun q => { q with pool := true }) (fun _ hy => hy))
          (monoStep_of_pipes_eq _ _ rfl)

theorem mono_displace (s : Sys) (i : PipeId) (err : Int) :
    MonoStep s (displace s i err).1 := by
  unfold displace
  split
  · exact monoStep_refl s
  · split
    · exact monoStep_refl s
    · split
      · exact monoStep_trans
          (monoStep_updatePipe s i (fun q => { q with pool := false }) (fun _ hy => hy))
          (monoStep_of_pipes_eq _ _ rfl)
      · exact monoStep_refl s

theorem monoStep_to_updatePipe {s s1 : Sys} (i : PipeId) (f : Pipe → Pipe)
    (h : MonoStep s s1) (hf : ∀ p, p.yielded = true → (f p).yielded = true) :
    MonoStep s (updatePipe s1 i f) :=
  monoStep_trans h (monoStep_updatePipe s1 i f hf)

theorem monoStep_to_displace {s s1 : Sys} (i : PipeId) (e : Int)
    (h : MonoStep s s1) : MonoStep s (displace s1 i e).1 :=
  monoStep_trans h (mono_displace s1 i e)

theorem mono_pooled (s : Sys) (i : PipeId) (err : Int) :
    MonoStep s (pooled s i err).1 := by
  unfold pooled
  split
  next r e1 heq =>
    split
    · exact mono_placed s i e1
    · split
      next s1 e2 heq2 =>
        have h1 : MonoStep s s1 := by
          have h := mono_displace s i e1
          rw [heq2] at h
          exact h
        exact monoStep_trans h1 (mono_retired s1 i e2)

theorem mono_unpool (s : Sys) (i : PipeId) (err : Int) :
    MonoStep s (unpool s i err).1 := by
  unfold unpool
  split
  · exact monoStep_refl s
  · split
    · exact monoStep_refl s
    · split
      next r e1 heq =>
        split
        · exact monoStep_refl s
        · split
          next s1 e2 heq2 =>
            have h1 : MonoStep s s1 := by
              have h := mono_displace s i e1
              rw [heq2] at h
              exact h
            split
            next s2 e3 ok heq3 =>
              have h2 : MonoStep s1 s2 := by
                have h := mono_retired s1 i e2
                rw [heq3] at h
                exact h
              split
              · exact monoStep_ctxIf (monoStep_trans h1 h2) _ none
              · exact monoStep_trans h1 h2

theorem mono_bdqTopFrame (s : Sys) (sid did : PipeId) :
    MonoStep s (bdqTopFrame s sid did).1 := by
  unfold bdqTopFrame
  split
  · exact monoStep_refl s
  · split
    · exact monoStep_refl s
    · rename_i fr rest hsc
      split
      · dsimp only
        exact monoStep_trans
          (monoStep_updatePipe s did
            (fun q => { q with scope :=
              (⟨fr.truncation, fr.blockers.erase sid, fr.finishers.erase sid⟩ : ScopeFrame) :: rest })
            (fun _ hy => hy))
          (monoStep_updatePipe _ sid (fun q => { q with reader := none }) (fun _ hy => hy))
      · exact monoStep_refl s

theorem mono_untethered (s : Sys) (sid : PipeId) (err : Int) :
    MonoStep s (untethered s sid err).1 := by
  unfold untethered
  split
  · exact monoStep_refl s
  · split
    · exact monoStep_refl s
    · split
      · exact mono_pooled s sid err
      · split
        next dr e1 heq =>
          split
          · exact monoStep_refl s
          · split
            · exact monoStep_refl s
            · rename_i did hdid
              split
              · exact monoStep_refl s
              · split
                · exact monoStep_refl s
                · split
                  · exact monoStep_refl s
                  · split
                    next s1 found heq2 =>
                      have h1 : MonoStep s s1 := by
                        have h := mono_bdqTopFrame s sid did
                        rw [heq2] at h
                        exact h
                      split
                      · exact h1
                      · split
                        next s2 e2 heq3 =>
                          have h2 : MonoStep s1 s2 := by
                            have h := mono_unpool s1 did e1
                            rw [heq3] at h
                            exact h
                          exact monoStep_trans h1
                            (monoStep_trans h2 (mono_pooled s2 sid e2))

theorem mono_killable (s : Sys) (sid : PipeId) (err : Int) :
    MonoStep s (killable s sid err).1 := by
  unfold killable
  split
  · exact monoStep_refl s
  · split
    · exact monoStep_refl s
    · exact monoStep_trans
        (monoStep_updatePipe s sid (fun q => { q with killed := true }) (fun _ hy => hy))
        (mono_untethered _ sid err)

theorem mono_tethered (s : Sys) (sid did : PipeId) (err : Int) :
    MonoStep s (tethered s sid did err).1 := by
  unfold tethered
  split
  · exact monoStep_refl s
  · split
    · exact monoStep_refl s
    · split
      · exact monoStep_refl s
      · split
        · exact monoStep_refl s
        · split
          · split
            next dr e1 heq =>
              split
              · split
                next s1 e2 heq2 =>
                  have h := mono_displace s sid e1
                  rw [heq2] at h
                  exact h
              · split
                next s1 e2 heq2 =>
                  have h := mono_displace s sid (raise e1 NTHM_NOTDRN)
                  rw [heq2] at h
                  exact h
          · split
            · split
              next s1 e2 heq2 =>
                have h := mono_displace s sid (ier err 164)
                rw [heq2] at h
                exact h
            · split
              · split
                next s1 e2 heq2 =>
                  have h := mono_displace s sid (ier err 166)
                  rw [heq2] at h
                  exact h
              · rename_i fr rest hscope
                dsimp only
                split
                · refine monoStep_to_displace _ _ ?_
                  refine monoStep_to_updatePipe _ _ ?_ ?_
                  · refine monoStep_to_updatePipe _ _ ?_ ?_
                    · refine monoStep_to_updatePipe _ _ ?_ ?_
                      · exact monoStep_refl s
                      · intro p hy
                        exact hy
                    · intro p hy
                      exact hy
                  · intro p hy
                    exact hy
                · refine monoStep_to_displace _ _ ?_
                  refine monoStep_to_updatePipe _ _ ?_ ?_
                  · refine monoStep_to_updatePipe _ _ ?_ ?_
                    · refine monoStep_to_updatePipe _ _ ?_ ?_
                      · exact monoStep_refl s
                      · intro p hy
                        exact hy
                    · intro p hy
                      exact hy
                  · intro p hy
                    exact hy

theorem monoStep_to_retired {s s1 : Sys} (i : PipeId) (e : Int)
    (h : MonoStep s s1) : MonoStep s (retired s1 i e).1 :=
  monoStep_trans h (mono_retired s1 i e)

theorem monoStep_to_killable {s s1 : Sys} (i : PipeId) (e : Int)
    (h : MonoStep s s1) : MonoStep s (killable s1 i e).1 :=
  monoStep_trans h (mono_killable s1 i e)

theorem mono_bkLoop (did : PipeId) :
    ∀ (fuel : Nat) (s : Sys) (err : Int), MonoStep s (bkLoop did fuel s err).1 := by
  intro fuel
  induction fuel with
  | zero =>
    intro s err
    exact monoStep_refl s
  | succ n ih =>
    intro s err
    unfold bkLoop
    split
    · exact monoStep_refl s
    · split
      · exact monoStep_refl s
      · split
        · exact monoStep_refl s
        · dsimp only
          split
          · exact mono_killable s _ err
          · exact monoStep_trans (mono_killable s _ err) (ih _ _)

theorem mono_blockersKilled (s : Sys) (did : PipeId) (err : Int) :
    MonoStep s (blockersKilled s did err).1 := by
  unfold blockersKilled
  split
  · exact monoStep_refl s
  · split
    · exact monoStep_refl s
    · split
      · exact monoStep_refl s
      · split
        · exact monoStep_refl s
        · split
          · exact monoStep_refl s
          · exact mono_bkLoop did _ s err

theorem mono_dkLoop (did : PipeId) :
    ∀ (fuel : Nat) (s : Sys) (err : Int), MonoStep s (dkLoop did fuel s err).1 := by
  intro fuel
  induction fuel with
  | zero =>
    intro s err
    exact monoStep_refl s
  | succ n ih =>
    intro s err
    unfold dkLoop
    split
    · exact monoStep_refl s
    · split
      · exact monoStep_refl s
      · split
        · exact monoStep_refl s
        · dsimp only
          split
          · refine monoStep_to_updatePipe _ _ ?_ ?_
            · refine monoStep_to_updatePipe _ _ ?_ ?_
              · exact monoStep_refl s
              · intro p hy
                exact hy
            · intro p hy
              exact hy
          · split
            · refine monoStep_to_updatePipe _ _ ?_ ?_
              · refine monoStep_to_updatePipe _ _ ?_ ?_
                · exact monoStep_refl s
                · intro p hy
                  exact hy
              · intro p hy
                exact hy
            · split
              · refine monoStep_to_retired _ _ ?_
                refine monoStep_to_updatePipe _ _ ?_ ?_
                · refine monoStep_to_updatePipe _ _ ?_ ?_
                  · exact monoStep_refl s
                  · intro p hy
                    exact hy
                · intro p hy
                  exact hy
              · refine monoStep_trans ?_ (ih _ _)
                refine monoStep_to_retired _ _ ?_
                refine monoStep_to_updatePipe _ _ ?_ ?_
                · refine monoStep_to_updatePipe _ _ ?_ ?_
                  · exact monoStep_refl s
                  · intro p hy
                    exact hy
                · intro p hy
                  exact hy

theorem mono_descendantsKilled (s : Sys) (did : PipeId) (err : Int) :
    MonoStep s (descendantsKilled s did err).1 := by
  unfold descendantsKilled
  split
  · exact monoStep_refl s
  · split
    · exact monoStep_refl s
    · dsimp only
      split
      · exact mono_blockersKilled s did err
      · split
        · exact mono_blockersKilled s did err
        · split
          · exact mono_blockersKilled s did err
          · exact monoStep_trans (mono_blockersKilled s did err) (mono_dkLoop did _ _ _)

theorem mono_untetheredYieldS (s : Sys) (sid : PipeId) (err : Int) :
    MonoStep s (untetheredYieldS s sid err).1 := by
  unfold untetheredYieldS
  split
  · exact monoStep_refl s
  · split
    · exact monoStep_refl s
    · dsimp only
      split
      · refine monoStep_to_updatePipe _ _ ?_ ?_
        · refine monoStep_to_updatePipe _ _ ?_ ?_
          · exact monoStep_refl s
          · intro p _
            rfl
        · intro p hy
          exact hy
      · refine monoStep_to_updatePipe _ _ ?_ ?_
        · exact monoStep_refl s
        · intro p _
          rfl

theorem mono_tetheredYieldS (s : Sys) (sid : PipeId) (err : Int) :
    MonoStep s (tetheredYieldS s sid err).1 := by
  unfold tetheredYieldS
  split
  · exact monoStep_refl s
  · split
    · exact monoStep_refl s
    · split
      · exact monoStep_refl s
      · split
        · exact monoStep_refl s
        · split
          · exact monoStep_refl s
          · split
            · exact monoStep_refl s
            · split
              · exact monoStep_refl s
              · dsimp only
                split
                · exact monoStep_refl s
                · split
                  · exact monoStep_refl s
                  · split
                    · refine monoStep_to_updatePipe _ _ ?_ ?_
                      · refine monoStep_to_updatePipe _ _ ?_ ?_
                        · refine monoStep_to_updatePipe _ _ ?_ ?_
                          · exact monoStep_refl s
                          · intro p hy
                            exact hy
                        · intro p _
                          rfl
                      · intro p hy
                        exact hy
                    · refine monoStep_to_updatePipe _ _ ?_ ?_
                      · refine monoStep_to_updatePipe _ _ ?_ ?_
                        · exact monoStep_refl s
                        · intro p hy
                          exact hy
                      · intro p _
                        rfl

theorem monoStep_to_untetheredYieldS {s s1 : Sys} (i : PipeId) (e : Int)
    (h : MonoStep s s1) : MonoStep s (untetheredYieldS s1 i e).1 :=
  monoStep_trans h (mono_untetheredYieldS s1 i e)

theorem monoStep_to_tetheredYieldS {s s1 : Sys} (i : PipeId) (e : Int)
    (h : MonoStep s s1) : MonoStep s (tetheredYieldS s1 i e).1 :=
  monoStep_trans h (mono_tetheredYieldS s1 i e)

theorem mono_yield (s : Sys) (sid : PipeId) (err : Int) :
    MonoStep s (yield s sid err).1 := by
  unfold yield
  dsimp only
  split
  · exact mono_descendantsKilled s sid err
  · split
    · exact mono_descendantsKilled s sid err
    · split
      · exact mono_descendantsKilled s sid err
      · split
        · exact monoStep_to_untetheredYieldS _ _ (mono_descendantsKilled s sid err)
        · exact monoStep_to_tetheredYieldS _ _ (mono_descendantsKilled s sid err)

theorem mono_untetheredRead (s : Sys) (sid : PipeId) (err : Int) :
    ∀ r s2 e2, untetheredRead s sid err = ReadOutcome.ret r s2 e2 →
      MonoStep s s2 := by
  intro r s2 e2 h
  unfold untetheredRead at h
  split at h
  · cases h
    exact monoStep_refl s
  · split at h
    · cases h
      exact monoStep_refl s
    · split at h
      · dsimp only at h
        cases h
        split
        · exact mono_killable s sid _
        · refine monoStep_to_killable _ _ ?_
          refine monoStep_to_updatePipe _ _ ?_ ?_
          · exact monoStep_refl s
          · intro p _
            rfl
      · split at h
        · cases h
        · dsimp only at h
          cases h
          split
          · refine monoStep_to_killable _ _ ?_
            refine monoStep_to_updatePipe _ _ ?_ ?_
            · exact monoStep_refl s
            · intro p hy
              exact hy
          · exact mono_killable s sid _

theorem mono_tetheredRead (s : Sys) (sid : PipeId) (err : Int) :
    ∀ r s2 e2, tetheredRead s sid err = ReadOutcome.ret r s2 e2 →
      MonoStep s s2 := by
  intro r s2 e2 h
  unfold tetheredRead at h
  split at h
  · cases h
    exact monoStep_refl s
  · split at h
    · cases h
      exact monoStep_refl s
    · split at h
      · cases h
        exact monoStep_refl s
      · dsimp only at h
        split at h
        · cases h
          exact monoStep_refl s
        · split at h
          · cases h
            exact monoStep_refl s
          · split at h
            · cases h
              exact monoStep_refl s
            · split at h
              · cases h
                exact monoStep_refl s
              · split at h
                · cases h
                · split at h
                  · cases h
                    refine monoStep_to_killable _ _ ?_
                    refine monoStep_to_updatePipe _ _ ?_ ?_
                    · exact monoStep_refl s
                    · intro p hy
                      exact hy
                  · cases h
                    exact mono_killable s sid _

theorem mono_select (s : Sys) (err : Int) :
    ∀ p s2 e2, nthmSelect s err = SelectOutcome.ret p s2 e2 → MonoStep s s2 := by
  intro p s2 e2 h
  unfold nthmSelect at h
  split at h
  · cases h
    exact monoStep_refl s
  · split at h
    · cases h
      exact monoStep_refl s
    · split at h
      · cases h
        exact monoStep_refl s
      · split at h
        · cases h
          exact monoStep_refl s
        · split at h
          · cases h
            exact monoStep_refl s
          · split at h
            · dsimp only at h
              cases h
              refine monoStep_to_updatePipe _ _ ?_ ?_
              · refine monoStep_to_updatePipe _ _ ?_ ?_
                · exact monoStep_refl s
                · intro q hy
                  exact hy
              · intro q hy
                exact hy
            · split at h
              · cases h
              · cases h
                exact monoStep_refl s

theorem mono_nthmTruncate (s : Sys) (src : Option PipeId) (err : Int) :
    MonoStep s (nthmTruncate s src err).1 := by
  unfold nthmTruncate
  split
  · exact monoStep_refl s
  · split
    · exact monoStep_refl s
    · split
      · exact monoStep_refl s
      · split
        · exact monoStep_refl s
        · dsimp only
          split
          · exact monoStep_refl s
          · split
            · exact monoStep_refl s
            · split
              · refine monoStep_to_updatePipe _ _ ?_ ?_
                · exact monoStep_refl s
                · intro p hy
                  exact hy
              · exact monoStep_refl s

theorem mono_nthmTruncateAll (s : Sys) (err : Int) :
    MonoStep s (nthmTruncateAll s err).1 := by
  unfold nthmTruncateAll
  split
  · exact monoStep_refl s
  · split
    · exact monoStep_refl s
    · split
      · exact monoStep_refl s
      · split
        · exact monoStep_refl s
        · dsimp only
          split
          · refine monoStep_to_updatePipe _ _ ?_ ?_
            · exact monoStep_refl s
            · intro p hy
              exact hy
          · exact monoStep_refl s

theorem monoStep_implies {s s2 : Sys} (h : MonoStep s s2) :
    YieldedPreserved s s2 := by
  intro i p p2 hp hp2 hy
  obtain ⟨q, hq, hi⟩ := h i p2 hp2
  rw [hp] at hq
  cases hq
  exact hi hy

/-- Claim C6: the yielded flag is monotonic.  Across every operation of the
embedded library — scope entry and exit, retirement, the pool operations,
tether and untether, kill and the kill cascade, both yield protocols, both
read protocols, select, and the truncation operations — a pipe whose
yielded flag is set never has it reset. -/
theorem yielded_monotonic :
    (∀ s i e, YieldedPreserved s (scopeEntered s i e).1) ∧
    (∀ s i e, YieldedPreserved s (scopeExited s i e).1) ∧
    (∀ s i e, YieldedPreserved s (retired s i e).1) ∧
    (∀ s i e, YieldedPreserved s (placed s i e).1) ∧
    (∀ s i e, YieldedPreserved s (displace s i e).1) ∧
    (∀ s i e, YieldedPreserved s (pooled s i e).1) ∧
    (∀ s i e, YieldedPreserved s (unpool s i e).1) ∧
    (∀ s i d e, YieldedPreserved s (tethered s i d e).1) ∧
    (∀ s i e, YieldedPreserved s (untethered s i e).1) ∧
    (∀ s i e, YieldedPreserved s (killable s i e).1) ∧
    (∀ s i e, YieldedPreserved s (descendantsKilled s i e).1) ∧
    (∀ s i e, YieldedPreserved s (untetheredYieldS s i e).1) ∧
    (∀ s i e, YieldedPreserved s (tetheredYieldS s i e).1) ∧
    (∀ s i e, YieldedPreserved s (yield s i e).1) ∧
    (∀ s i e r s2 e2, untetheredRead s i e = ReadOutcome.ret r s2 e2 →
      YieldedPreserved s s2) ∧
    (∀ s i e r s2 e2, tetheredRead s i e = ReadOutcome.ret r s2 e2 →
      YieldedPreserved s s2) ∧
    (∀ s e p s2 e2, nthmSelect s e = SelectOutcome.ret p s2 e2 →
      YieldedPreserved s s2) ∧
    (∀ s src e, YieldedPreserved s (nthmTruncate s src e).1) ∧
    (∀ s e, YieldedPreserved s (nthmTruncateAll s e).1) :=
  ⟨fun s i e => monoStep_implies (mono_scopeEntered s i e),
   fun s i e => monoStep_implies (mono_scopeExited s i e),
   fun s i e => monoStep_implies (mono_retired s i e),
   fun s i e => monoStep_implies (mono_placed s i e),
   fun s i e => monoStep_implies (mono_displace s i e),
   fun s i e => monoStep_implies (mono_pooled s i e),
   fun s i e => monoStep_implies (mono_unpool s i e),
   fun s i d e => monoStep_implies (mono_tethered s i d e),
   fun s i e => monoStep_implies (mono_untethered s i e),
   fun s i e => monoStep_implies (mono_killable s i e),
   fun s i e => monoStep_implies (mono_descendantsKilled s i e),
   fun s i e => monoStep_implies (mono_untetheredYieldS s i e),
   fun s i e => monoStep_implies (mono_tetheredYieldS s i e),
   fun s i e => monoStep_implies (mono_yield s i e),
   fun s i e r s2 e2 h => monoStep_implies (mono_untetheredRead s i e r s2 e2 h),
   fun s i e r s2 e2 h => monoStep_implies (mono_tetheredRead s i e r s2 e2 h),
   fun s e p s2 e2 h => monoStep_implies (mono_select s e p s2 e2 h),
   fun s src e => monoStep_implies (mono_nthmTruncate s src e),
   fun s e => monoStep_implies (mono_nthmTruncateAll s e)⟩

/-- Witness for yielded monotonicity: the yielded worker of
`exampleYieldedSys` is still yielded after an untethered yield replays on
it. -/
theorem yielded_monotonic_witness :
    (findPipe (untetheredYieldS exampleYieldedSys 9 0).1 9).map Pipe.yielded
      = some true := by
  cases hq : findPipe (untetheredYieldS exampleYieldedSys 9 0).1 9 with
  | none => exact absurd hq (by decide)
  | some q =>
    have hm := yielded_monotonic.2.2.2.2.2.2.2.2.2.2.2.1 exampleYieldedSys 9 0
    have hy := hm 9 exampleYieldedPipe q (by decide) hq (by decide)
    simp [hy]

theorem errPres_refl (e : Int) : ErrPres e e := fun _ => rfl

theorem errPres_ier (e n : Int) : ErrPres e (ier e n) := by
  intro h
  unfold ier
  rw [if_pos h]

theorem errPres_raise (e c : Int) : ErrPres e (raise e c) := by
  intro h
  unfold raise
  rw [if_pos h]

theorem errPres_trans {e1 e2 e3 : Int} (h12 : ErrPres e1 e2)
    (h23 : ErrPres e2 e3) : ErrPres e1 e3 := by
  intro h
  rw [h23 (by rw [h12 h]; exact h), h12 h]

theorem errPres_scopeLevel (s : Sys) (d : Option PipeId) (e : Int) :
    ErrPres e (scopeLevel s d e).2 := by
  unfold scopeLevel
  split
  · exact errPres_ier e 289
  · split
    · exact errPres_ier e 289
    · split
      · exact errPres_ier e 290
      · split
        · exact errPres_ier e 291
        · exact errPres_refl e

theorem errPres_drainedBy (s : Sys) (i : PipeId) (d : Option PipeId) (e : Int) :
    ErrPres e (drainedBy s i d e).2 := by
  unfold drainedBy
  split
  · exact errPres_ier e 292
  · split
    · exact errPres_ier e 293
    · split
      · exact errPres_refl e
      · split
        · exact errPres_refl e
        · dsimp only
          exact errPres_scopeLevel s d e

theorem errPres_retirable (p : Option Pipe) (e : Int) :
    ErrPres e (retirable p e).2 := by
  unfold retirable
  split
  · exact errPres_ier e 118
  · split
    · exact errPres_ier e 119
    · split
      · exact errPres_refl e
      · split
        · exact errPres_ier e 121
        · exact errPres_refl e

theorem errPres_scopeEntered (s : Sys) (i : PipeId) (e : Int) :
    ErrPres e (scopeEntered s i e).2.1 := by
  unfold scopeEntered
  split
  · exact errPres_ier e 277
  · split
    · exact errPres_ier e 278
    · exact errPres_refl e

theorem errPres_scopeExited (s : Sys) (i : PipeId) (e : Int) :
    ErrPres e (scopeExited s i e).2.1 := by
  unfold scopeExited
  split
  · exact errPres_ier e 281
  · split
    · exact errPres_ier e 282
    · split
      · exact errPres_ier e 283
      · split
        · exact errPres_ier e 285
        · split
          · exact errPres_ier e 286
          · exact errPres_refl e

theorem errPres_retired (s : Sys) (i : PipeId) (e : Int) :
    ErrPres e (retired s i e).2.1 := by
  unfold retired
  split
  · exact errPres_ier e 88
  · split
    · exact errPres_ier e 89
    · split
      · exact errPres_ier e 90
      · split
        · exact errPres_ier e 91
        · dsimp only
          split
          · exact errPres_scopeExited s i e
          · exact errPres_scopeExited s i e

theorem errPres_placed (s : Sys) (i : PipeId) (e : Int) :
    ErrPres e (placed s i e).2.1 := by
  unfold placed
  split
  · exact errPres_ier e 221
  · split
    · exact errPres_ier e 222
    · split
      · exact errPres_refl e
      · exact errPres_refl e

theorem errPres_displace (s : Sys) (i : PipeId) (e : Int) :
    ErrPres e (displace s i e).2 := by
  unfold displace
  split
  · exact errPres_ier e 228
  · split
    · exact errPres_ier e 229
    · split
      · exact errPres_refl e
      · exact errPres_refl e

theorem errPres_pooled (s : Sys) (i : PipeId) (e : Int) :
    ErrPres e (pooled s i e).2.1 := by
  unfold pooled
  dsimp only
  split
  · exact errPres_trans (errPres_retirable _ e) (errPres_placed _ i _)
  · exact errPres_trans (errPres_retirable _ e)
      (errPres_trans (errPres_displace _ i _) (errPres_retired _ i _))

theorem errPres_unpool (s : Sys) (i : PipeId) (e : Int) :
    ErrPres e (unpool s i e).2 := by
  unfold unpool
  split
  · exact errPres_ier e 234
  · split
    · exact errPres_ier e 235
    · dsimp only
      split
      · exact errPres_retirable _ e
      · split
        · exact errPres_trans (errPres_retirable _ e)
            (errPres_trans (errPres_displace _ i _) (errPres_retired _ i _))
        · exact errPres_trans (errPres_retirable _ e)
            (errPres_trans (errPres_displace _ i _)
              (errPres_trans (errPres_retired _ i _) (errPres_ier _ 236)))

theorem errPres_untethered (s : Sys) (i : PipeId) (e : Int) :
    ErrPres e (untethered s i e).2.1 := by
  unfold untethered
  split
  · exact errPres_ier e 170
  · split
    · exact errPres_ier e 171
    · split
      · exact errPres_pooled s i e
      · dsimp only
        split
        · exact errPres_trans (errPres_drainedBy s i s.context e)
            (errPres_raise _ NTHM_NOTDRN)
        · split
          · exact errPres_trans (errPres_drainedBy s i s.context e)
              (errPres_ier _ 172)
          · split
            · exact errPres_trans (errPres_drainedBy s i s.context e)
                (errPres_ier _ 172)
            · split
              · exact errPres_trans (errPres_drainedBy s i s.context e)
                  (errPres_ier _ 173)
              · split
                · exact errPres_trans (errPres_drainedBy s i s.context e)
                    (errPres_ier _ 176)
                · split
                  · exact errPres_drainedBy s i s.context e
                  · exact errPres_trans (errPres_drainedBy s i s.context e)
                      (errPres_trans (errPres_unpool _ _ _) (errPres_pooled _ i _))

theorem errPres_killable (s : Sys) (i : PipeId) (e : Int) :
    ErrPres e (killable s i e).2.1 := by
  unfold killable
  split
  · exact errPres_ier e 185
  · split
    · exact errPres_ier e 186
    · exact errPres_untethered _ i e

theorem errPres_tethered (s : Sys) (i d : PipeId) (e : Int) :
    ErrPres e (tethered s i d e).2.1 := by
  unfold tethered
  split
  · exact errPres_ier e 159
  · split
    · exact errPres_ier e 160
    · split
      · exact errPres_ier e 161
      · split
        · exact errPres_ier e 162
        · split
          · dsimp only
            split
            · exact errPres_trans (errPres_drainedBy s i (some d) e)
                (errPres_displace s i _)
            · exact errPres_trans (errPres_drainedBy s i (some d) e)
                (errPres_trans (errPres_raise _ NTHM_NOTDRN) (errPres_displace s i _))
          · split
            · dsimp only
              exact errPres_trans (errPres_ier e 164) (errPres_displace s i _)
            · split
              · dsimp only
                exact errPres_trans (errPres_ier e 166) (errPres_displace s i _)
              · dsimp only
                exact errPres_trans (errPres_scopeLevel _ (some d) e)
                  (errPres_displace _ i _)

theorem errPres_bkLoop (did : PipeId) :
    ∀ (fuel : Nat) (s : Sys) (e : Int), ErrPres e (bkLoop did fuel s e).2.1 := by
  intro fuel
  induction fuel with
  | zero =>
    intro s e
    exact errPres_refl e
  | succ n ih =>
    intro s e
    unfold bkLoop
    split
    · exact errPres_refl e
    · split
      · exact errPres_refl e
      · split
        · exact errPres_refl e
        · dsimp only
          split
          · exact errPres_killable s _ e
          · exact errPres_trans (errPres_killable s _ e) (ih _ _)

theorem errPres_blockersKilled (s : Sys) (did : PipeId) (e : Int) :
    ErrPres e (blockersKilled s did e).2.1 := by
  unfold blockersKilled
  split
  · exact errPres_ier e 190
  · split
    · exact errPres_ier e 191
    · split
      · exact errPres_ier e 192
      · split
        · exact errPres_ier e 194
        · split
          · exact errPres_ier e 195
          · exact errPres_bkLoop did _ s e

theorem errPres_dkLoop (did : PipeId) :
    ∀ (fuel : Nat) (s : Sys) (e : Int), ErrPres e (dkLoop did fuel s e).2.1 := by
  intro fuel
  induction fuel with
  | zero =>
    intro s e
    exact errPres_refl e
  | succ n ih =>
    intro s e
    unfold dkLoop
    split
    · exact errPres_refl e
    · split
      · exact errPres_refl e
      · split
        · exact errPres_refl e
        · dsimp only
          split
          · exact errPres_refl e
          · split
            · exact errPres_ier e 204
            · split
              · exact errPres_retired _ _ e
              · exact errPres_trans (errPres_retired _ _ e) (ih _ _)

theorem errPres_descendantsKilled (s : Sys) (did : PipeId) (e : Int) :
    ErrPres e (descendantsKilled s did e).2.1 := by
  unfold descendantsKilled
  split
  · exact errPres_ier e 200
  · split
    · exact errPres_ier e 201
    · dsimp only
      split
      · exact errPres_blockersKilled s did e
      · split
        · exact errPres_blockersKilled s did e
        · split
          · exact errPres_trans (errPres_blockersKilled s did e) (errPres_ier _ 203)
          · exact errPres_trans (errPres_blockersKilled s did e) (errPres_dkLoop did _ _ _)

theorem errPres_htWalk (s : Sys) :
    ∀ (fuel : Nat) (i : PipeId) (p : Pipe) (e : Int),
      ErrPres e (htWalk s fuel i p e).2 := by
  intro fuel
  induction fuel with
  | zero =>
    intro i p e
    exact errPres_refl e
  | succ n ih =>
    intro i p e
    unfold htWalk
    split
    · exact errPres_refl e
    · split
      · exact errPres_ier e 108
      · split
        · exact errPres_ier e 109
        · split
          · exact errPres_ier e 111
          · dsimp only
            split
            · exact errPres_trans (errPres_scopeLevel s _ e) (errPres_ier _ 112)
            · split
              · exact errPres_trans (errPres_scopeLevel s _ e) (errPres_ier _ 113)
              · split
                · exact errPres_scopeLevel s _ e
                · exact errPres_trans (errPres_scopeLevel s _ e) (ih _ _ _)

theorem errPres_heritablyTruncated (s : Sys) (i : PipeId) (e : Int) :
    ErrPres e (heritablyTruncated s i e).2 := by
  unfold heritablyTruncated
  split
  · exact errPres_ier e 105
  · split
    · exact errPres_ier e 106
    · dsimp only
      split
      · exact errPres_refl e
      · split
        · exact errPres_refl e
        · exact errPres_htWalk s _ i _ e

theorem errPres_nthmTruncated (s : Sys) (e : Int) :
    ErrPres e (nthmTruncated s e).2 := by
  unfold nthmTruncated
  split
  · exact errPres_raise e NTHM_UNMANT
  · split
    · exact errPres_ier e 55
    · split
      · exact errPres_ier e 55
      · split
        · exact errPres_ier e 57
        · split
          · exact errPres_refl e
          · exact errPres_heritablyTruncated s _ e

theorem errPres_nthmTruncate (s : Sys) (src : Option PipeId) (e : Int) :
    ErrPres e (nthmTruncate s src e).2 := by
  unfold nthmTruncate
  split
  · exact errPres_raise e NTHM_NULPIP
  · split
    · exact errPres_raise e NTHM_INVPIP
    · split
      · exact errPres_raise e NTHM_INVPIP
      · split
        · exact errPres_refl e
        · dsimp only
          split
          · exact errPres_trans (errPres_drainedBy s _ s.context e)
              (errPres_raise _ NTHM_NOTDRN)
          · split
            · exact errPres_trans (errPres_drainedBy s _ s.context e) (errPres_ier _ 49)
            · split
              · exact errPres_drainedBy s _ s.context e
              · exact errPres_drainedBy s _ s.context e

theorem errPres_nthmTruncateAll (s : Sys) (e : Int) :
    ErrPres e (nthmTruncateAll s e).2 := by
  unfold nthmTruncateAll
  split
  · exact errPres_refl e
  · split
    · exact errPres_ier e 51
    · split
      · exact errPres_ier e 51
      · split
        · exact errPres_ier e 53
        · dsimp only
          split
          · exact errPres_refl e
          · exact errPres_refl e

theorem errPres_select (s : Sys) (e : Int) :
    ∀ p s2 e2, nthmSelect s e = SelectOutcome.ret p s2 e2 → ErrPres e e2 := by
  intro p s2 e2 h
  unfold nthmSelect at h
  split at h
  · cases h
    exact errPres_refl e
  · split at h
    · cases h
      exact errPres_ier e 43
    · split at h
      · cases h
        exact errPres_ier e 43
      · split at h
        · cases h
          exact errPres_ier e 45
        · split at h
          · cases h
            exact errPres_raise e NTHM_KILLED
          · split at h
            · dsimp only at h
              cases h
              exact errPres_refl e
            · split at h
              · cases h
              · cases h
                exact errPres_refl e

theorem errPres_untetheredRead (s : Sys) (sid : PipeId) (e : Int) :
    ∀ r s2 e2, untetheredRead s sid e = ReadOutcome.ret r s2 e2 → ErrPres e e2 := by
  intro r s2 e2 h
  unfold untetheredRead at h
  split at h
  · cases h
    exact errPres_ier e 237
  · split at h
    · cases h
      exact errPres_ier e 238
    · split at h
      · dsimp only at h
        cases h
        split
        · exact errPres_trans (errPres_raise e NTHM_NOTDRN) (errPres_killable _ sid _)
        · exact errPres_trans (errPres_raise e NTHM_NOTDRN)
            (errPres_trans (errPres_ier _ 241) (errPres_killable _ sid _))
      · split at h
        · cases h
        · dsimp only at h
          cases h
          split
          · rename_i hc
            intro he
            exact absurd hc.1 he
          · exact errPres_killable s sid e

theorem errPres_tetheredRead (s : Sys) (sid : PipeId) (e : Int) :
    ∀ r s2 e2, tetheredRead s sid e = ReadOutcome.ret r s2 e2 → ErrPres e e2 := by
  intro r s2 e2 h
  unfold tetheredRead at h
  split at h
  · cases h
    exact errPres_ier e 243
  · split at h
    · cases h
      exact errPres_ier e 244
    · split at h
      · cases h
        exact errPres_ier e 245
      · dsimp only at h
        split at h
        · cases h
          exact errPres_trans (errPres_drainedBy s sid s.context e)
            (errPres_raise _ NTHM_NOTDRN)
        · split at h
          · cases h
            exact errPres_trans (errPres_drainedBy s sid s.context e)
              (errPres_ier _ 246)
          · split at h
            · cases h
              exact errPres_trans (errPres_drainedBy s sid s.context e)
                (errPres_ier _ 246)
            · split at h
              · cases h
                exact errPres_trans (errPres_drainedBy s sid s.context e)
                  (errPres_ier _ 247)
              · split at h
                · cases h
                · split at h
                  · rename_i hc
                    cases h
                    intro he
                    have hd := errPres_drainedBy s sid s.context e he
                    rw [hd] at hc
                    exact absurd hc.1 he
                  · cases h
                    exact errPres_trans (errPres_drainedBy s sid s.context e)
                      (errPres_killable _ sid _)

theorem errMoved_untetheredYieldS (s : Sys) (sid : PipeId) (e : Int) :
    ErrMoved (untetheredYieldS s sid e).1 sid e (untetheredYieldS s sid e).2 := by
  unfold untetheredYieldS
  cases hfind : findPipe s sid with
  | none =>
    intro h
    exact Or.inl (errPres_ier e 251 h)
  | some p =>
    dsimp only
    by_cases hv : p.valid = true
    · rw [if_neg (by simp [hv])]
      by_cases hks : ¬ p.killed = true ∧ p.status = 0
      · rw [if_pos hks]
        intro h
        refine Or.inr ⟨by rw [if_pos h], ?_⟩
        rw [findPipe_updatePipe_self, findPipe_updatePipe_self, hfind]
        rfl
      · rw [if_neg hks]
        intro h
        exact Or.inl rfl
    · rw [if_pos (by simp [hv])]
      intro h
      exact Or.inl (errPres_ier e 252 h)

theorem errMoved_tetheredYieldS (s : Sys) (sid : PipeId) (e : Int) :
    ErrMoved (tetheredYieldS s sid e).1 sid e (tetheredYieldS s sid e).2 := by
  unfold tetheredYieldS
  cases hfind : findPipe s sid with
  | none =>
    intro h
    exact Or.inl (errPres_ier e 255 h)
  | some p =>
    try dsimp only
    split
    · intro h
      exact Or.inl (errPres_ier e 256 h)
    · split
      · intro h
        exact Or.inl (errPres_ier e 257 h)
      · split
        · intro h
          exact Or.inl (errPres_ier e 258 h)
        · rename_i did hreader
          split
          · intro h
            exact Or.inl (errPres_ier e 259 h)
          · split
            · intro h
              exact Or.inl (errPres_ier e 260 h)
            · split
              · intro h
                exact Or.inl (errPres_ier e 262 h)
              · try dsimp only
                split
                · intro h
                  exact Or.inl (errPres_trans (errPres_scopeLevel s _ e)
                    (errPres_ier _ 263) h)
                · split
                  · intro h
                    exact Or.inl (errPres_trans (errPres_scopeLevel s _ e)
                      (errPres_ier _ 264) h)
                  · split
                    · intro h
                      have he1 : (scopeLevel s (some did) e).2 = e :=
                        errPres_scopeLevel s (some did) e h
                      refine Or.inr ⟨by rw [if_pos (by rw [he1]; exact h)], ?_⟩
                      rw [findPipe_updatePipe_self, findPipe_updatePipe_self]
                      by_cases hsd : sid = did
                      · subst hsd
                        rw [findPipe_updatePipe_self, hfind]
                        simp [he1]
                      · rw [findPipe_updatePipe_ne _ _ _ _ hsd, hfind]
                        simp [he1]
                    · intro h
                      exact Or.inl (errPres_scopeLevel s _ e h)

theorem errMoved_yield (s : Sys) (sid : PipeId) (e : Int) :
    ErrMoved (yield s sid e).1 sid e (yield s sid e).2 := by
  unfold yield
  dsimp only
  split
  · intro h
    exact Or.inl (errPres_descendantsKilled s sid e h)
  · split
    · intro h
      exact Or.inl (errPres_trans (errPres_descendantsKilled s sid e)
        (errPres_ier _ 269) h)
    · split
      · intro h
        exact Or.inl (errPres_trans (errPres_descendantsKilled s sid e)
          (errPres_ier _ 270) h)
      · split
        · intro h
          have he1 := errPres_descendantsKilled s sid e h
          have hm := errMoved_untetheredYieldS (descendantsKilled s sid e).1 sid
            (descendantsKilled s sid e).2.1
          rcases hm (by rw [he1]; exact h) with h2 | ⟨h2, h3⟩
          · exact Or.inl (h2.trans he1)
          · exact Or.inr ⟨h2, h3.trans (congrArg some he1)⟩
        · intro h
          have he1 := errPres_descendantsKilled s sid e h
          have hm := errMoved_tetheredYieldS (descendantsKilled s sid e).1 sid
            (descendantsKilled s sid e).2.1
          rcases hm (by rw [he1]; exact h) with h2 | ⟨h2, h3⟩
          · exact Or.inl (h2.trans he1)
          · exact Or.inr ⟨h2, h3.trans (congrArg some he1)⟩

/-- Claim C5, counterexample: untethered_yield called with a pending error
of -9 on a running unkilled worker with a clear status resets the channel
to 0, so the claim that a nonzero channel is never overwritten fails as
stated (the error is moved into the pipe's status, not preserved in the
channel). -/
theorem first_error_overwritten_cex :
    (untetheredYieldS exampleYieldSys 3 (-9)).2 = 0 ∧
      ((-9 : Int) ≠ 0) ∧ ¬ ((0 : Int) = -9) ∧
      (findPipe (untetheredYieldS exampleYieldSys 3 (-9)).1 3).map Pipe.status
        = some (-9) := by
  refine ⟨by decide, by decide, by decide, by decide⟩

/-- Claim C5, amended: across every embedded operation, a nonzero incoming
error channel is never replaced by a different nonzero code.  Every
operation except the yield protocols returns the channel unchanged; a
yield either returns it unchanged or moves the pending error verbatim into
the yielding pipe's status field, clearing the channel to zero. -/
theorem first_error_wins :
    (∀ s i d e, ErrPres e (drainedBy s i d e).2) ∧
    (∀ p e, ErrPres e (retirable p e).2) ∧
    (∀ s i e, ErrPres e (scopeEntered s i e).2.1) ∧
    (∀ s i e, ErrPres e (scopeExited s i e).2.1) ∧
    (∀ s i e, ErrPres e (retired s i e).2.1) ∧
    (∀ s i e, ErrPres e (placed s i e).2.1) ∧
    (∀ s i e, ErrPres e (displace s i e).2) ∧
    (∀ s i e, ErrPres e (pooled s i e).2.1) ∧
    (∀ s i e, ErrPres e (unpool s i e).2) ∧
    (∀ s i d e, ErrPres e (tethered s i d e).2.1) ∧
    (∀ s i e, ErrPres e (untethered s i e).2.1) ∧
    (∀ s i e, ErrPres e (killable s i e).2.1) ∧
    (∀ s i e, ErrPres e (descendantsKilled s i e).2.1) ∧
    (∀ s i e, ErrPres e (heritablyTruncated s i e).2) ∧
    (∀ s e, ErrPres e (nthmTruncated s e).2) ∧
    (∀ s src e, ErrPres e (nthmTruncate s src e).2) ∧
    (∀ s e, ErrPres e (nthmTruncateAll s e).2) ∧
    (∀ s e p s2 e2, nthmSelect s e = SelectOutcome.ret p s2 e2 → ErrPres e e2) ∧
    (∀ s i e r s2 e2, untetheredRead s i e = ReadOutcome.ret r s2 e2 → ErrPres e e2) ∧
    (∀ s i e r s2 e2, tetheredRead s i e = ReadOutcome.ret r s2 e2 → ErrPres e e2) ∧
    (∀ s i e, ErrMoved (untetheredYieldS s i e).1 i e (untetheredYieldS s i e).2) ∧
    (∀ s i e, ErrMoved (tetheredYieldS s i e).1 i e (tetheredYieldS s i e).2) ∧
    (∀ s i e, ErrMoved (yield s i e).1 i e (yield s i e).2) :=
  ⟨errPres_drainedBy, errPres_retirable, errPres_scopeEntered,
   errPres_scopeExited, errPres_retired, errPres_placed, errPres_displace,
   errPres_pooled, errPres_unpool, errPres_tethered, errPres_untethered,
   errPres_killable, errPres_descendantsKilled, errPres_heritablyTruncated,
   errPres_nthmTruncated, errPres_nthmTruncate, errPres_nthmTruncateAll,
   errPres_select, errPres_untetheredRead, errPres_tetheredRead,
   errMoved_untetheredYieldS, errMoved_tetheredYieldS, errMoved_yield⟩

/-- Witness for first-error-wins: a channel holding 5 survives placing a
pipe into the root pool. -/
theorem first_error_wins_witness :
    (placed exampleIdle 0 5).2.1 = 5 :=
  first_error_wins.2.2.2.2.2.1 exampleIdle 0 5 (by decide)

end Nthm
